import Mathlib

/-
Verification of the trading-strategy evaluation and portfolio backtesting core
of the krypto-analyse-bot repository.

The Python sources are shallowly embedded:
  * floats are modelled as rationals (ℚ);
  * datetimes are modelled as integers (seconds);
  * Python dicts keyed by strings are modelled as association lists that
    replace in place on key collision and append fresh keys at the end
    (Python insertion order);
  * Python truthiness of an Optional[float] (None and 0.0 are falsy) is
    modelled by the helper truthyQ;
  * numeric-to-string formatting inside reasoning strings is abstracted by
    fmtQ (the decision logic never inspects these strings);
  * fields named *_ratio in the source are spelled *_quot here
    (same order and values); the config field partial_profit_levels,
    which no embedded operation reads, is omitted.

Sources embedded: modules/data_models.py, modules/strategies/base_strategy.py,
modules/strategies/conservative/{config,trend_strategy_simple}.py,
modules/strategies/moderate/{config,momentum_strategy}.py,
modules/strategies/registry.py, modules/simulation/portfolio_simulator.py,
modules/simulation/backtester.py.
-/

/-- Python truthiness of an Optional[float]: None and 0.0 are falsy. -/
def truthyQ (o : Option ℚ) : Bool :=
  match o with
  | none => false
  | some v => v != 0

/-- Abstraction of Python float/str formatting used only inside reasoning
strings (f-strings such as "Stop loss triggered at {price}"). -/
def fmtQ (q : ℚ) : String := toString q

/-- data_models.TradingSignal. -/
inductive TradingSignal
  | STRONG_BUY
  | BUY
  | HOLD
  | SELL
  | STRONG_SELL
deriving DecidableEq

/-- data_models.MarketData. -/
structure MarketData where
  symbol : String
  price : ℚ
  volume : ℚ
  timestamp : ℤ
  high_24h : ℚ
  low_24h : ℚ
  change_24h : ℚ
deriving DecidableEq

/-- data_models.TechnicalIndicators (volume_ratio spelled volume_quot). -/
structure TechnicalIndicators where
  rsi : ℚ
  macd : ℚ
  macd_signal : ℚ
  macd_histogram : ℚ
  ma20 : ℚ
  ma50 : ℚ
  ma200 : ℚ
  bb_upper : ℚ
  bb_lower : ℚ
  bb_position : ℚ
  atr : ℚ
  atr_percentage : ℚ
  stoch_k : ℚ
  williams_r : ℚ
  volume_quot : ℚ
deriving DecidableEq

/-- data_models.NewsAnalysis. -/
structure NewsAnalysis where
  sentiment_score : ℤ
  category : String
  summary : String
  is_critical : Bool
  confidence : ℚ
  articles_count : ℤ
deriving DecidableEq

/-- data_models.TradingDecision. -/
structure TradingDecision where
  signal : TradingSignal
  confidence : ℚ
  reasoning : String
  stop_loss : Option ℚ
  take_profit : Option ℚ
  position_size : ℚ
deriving DecidableEq

/-- conservative/config.py ConservativeConfig (take_profit_ratio spelled
take_profit_quot, min_volume_ratio spelled min_volume_quot). -/
structure ConservativeConfig where
  max_position_size : ℚ
  stop_loss_atr_multiplier : ℚ
  take_profit_quot : ℚ
  max_portfolio_risk : ℚ
  ma_long_period : ℕ
  ma_short_period : ℕ
  rsi_oversold : ℚ
  rsi_overbought : ℚ
  max_atr_percentage : ℚ
  min_volume_quot : ℚ
  require_ma_trend : Bool
  min_trend_strength : ℚ
  scaling_in_steps : ℕ
  profit_taking_levels : List ℚ

/-- conservative/config.py CONSERVATIVE_CONFIG (defaults, after post-init). -/
def CONSERVATIVE_CONFIG : ConservativeConfig :=
  { max_position_size := 5/100
    stop_loss_atr_multiplier := 2
    take_profit_quot := 3
    max_portfolio_risk := 10/100
    ma_long_period := 200
    ma_short_period := 50
    rsi_oversold := 30
    rsi_overbought := 70
    max_atr_percentage := 3
    min_volume_quot := 8/10
    require_ma_trend := true
    min_trend_strength := 2/100
    scaling_in_steps := 2
    profit_taking_levels := [1/2, 1] }

/-- ConservativeTrendStrategy._is_trend_bullish. -/
def ConservativeTrendStrategy.is_trend_bullish (ind : TechnicalIndicators) : Bool :=
  decide (ind.ma50 > ind.ma200 * (101/100))

/-- ConservativeTrendStrategy._get_rsi_signal. -/
def ConservativeTrendStrategy.get_rsi_signal (ind : TechnicalIndicators) : String :=
  if ind.rsi ≤ 30 then "oversold"
  else if ind.rsi ≥ 70 then "overbought"
  else "neutral"

/-- ConservativeTrendStrategy._is_volatility_acceptable. -/
def ConservativeTrendStrategy.is_volatility_acceptable (ind : TechnicalIndicators) : Bool :=
  decide (ind.atr_percentage ≤ 3)

/-- ConservativeTrendStrategy._is_news_positive (a dataclass instance is
always truthy, so only None yields the early True). -/
def ConservativeTrendStrategy.is_news_positive (news : Option NewsAnalysis) : Bool :=
  match news with
  | none => true
  | some n => decide (n.sentiment_score ≥ -3) && !n.is_critical

/-- ConservativeTrendStrategy._combine_signals. -/
def ConservativeTrendStrategy.combine_signals (trend_bullish : Bool)
    (rsi_signal : String) (volatility_ok news_ok : Bool) :
    TradingSignal × ℚ × String :=
  if trend_bullish ∧ (rsi_signal = "oversold" ∨ rsi_signal = "neutral") ∧
      volatility_ok ∧ news_ok then
    let confidence : ℚ := if rsi_signal = "oversold" then 7/10 + 1/10 else 7/10
    let reasons := ["Bullish Trend (MA50 > MA200)", "RSI " ++ rsi_signal,
                    "Low Volatility", "Positive News"]
    (TradingSignal.BUY, confidence, String.intercalate " | " reasons)
  else if ¬trend_bullish ∨ rsi_signal = "overbought" ∨ ¬volatility_ok ∨ ¬news_ok then
    let reasons :=
      (if ¬trend_bullish then ["Bearish Trend"] else []) ++
      (if rsi_signal = "overbought" then ["RSI Overbought"] else []) ++
      (if ¬volatility_ok then ["High Volatility"] else []) ++
      (if ¬news_ok then ["Negative News"] else [])
    (TradingSignal.SELL, 6/10, String.intercalate " | " reasons)
  else
    (TradingSignal.HOLD, 1/2, "No clear signals")

/-- ConservativeTrendStrategy._calculate_position_size. -/
def ConservativeTrendStrategy.calculate_position_size (signal : TradingSignal)
    (_price : ℚ) : ℚ :=
  if signal = TradingSignal.BUY ∨ signal = TradingSignal.STRONG_BUY then
    CONSERVATIVE_CONFIG.max_position_size
  else 0

/-- ConservativeTrendStrategy._calculate_stop_loss. -/
def ConservativeTrendStrategy.calculate_stop_loss (price : ℚ)
    (signal : TradingSignal) : Option ℚ :=
  if signal = TradingSignal.BUY ∨ signal = TradingSignal.STRONG_BUY then
    let atr_estimate := price * (2/100)
    some (price - atr_estimate * CONSERVATIVE_CONFIG.stop_loss_atr_multiplier)
  else none

/-- ConservativeTrendStrategy._calculate_take_profit. -/
def ConservativeTrendStrategy.calculate_take_profit (price : ℚ)
    (signal : TradingSignal) : Option ℚ :=
  if signal = TradingSignal.BUY ∨ signal = TradingSignal.STRONG_BUY then
    let atr_estimate := price * (2/100)
    let stop_distance := atr_estimate * CONSERVATIVE_CONFIG.stop_loss_atr_multiplier
    some (price + stop_distance * CONSERVATIVE_CONFIG.take_profit_quot)
  else none

/-- Body of ConservativeTrendStrategy.analyze (the try block); the embedded
operations are total, so the body always succeeds. -/
def ConservativeTrendStrategy.analyzeCore (_symbol : String)
    (market_data : MarketData) (ind : TechnicalIndicators)
    (news : Option NewsAnalysis) : Except String TradingDecision :=
  let trend_bullish := ConservativeTrendStrategy.is_trend_bullish ind
  let rsi_signal := ConservativeTrendStrategy.get_rsi_signal ind
  let volatility_ok := ConservativeTrendStrategy.is_volatility_acceptable ind
  let news_ok := ConservativeTrendStrategy.is_news_positive news
  let combined :=
    ConservativeTrendStrategy.combine_signals trend_bullish rsi_signal
      volatility_ok news_ok
  let signal := combined.1
  let position_size :=
    ConservativeTrendStrategy.calculate_position_size signal market_data.price
  Except.ok
    { signal := signal
      confidence := combined.2.1
      reasoning := combined.2.2
      stop_loss := ConservativeTrendStrategy.calculate_stop_loss
        market_data.price signal
      take_profit := ConservativeTrendStrategy.calculate_take_profit
        market_data.price signal
      position_size := position_size }

/-- The except-handler of ConservativeTrendStrategy.analyze. -/
def ConservativeTrendStrategy.errorDecision (e : String) : TradingDecision :=
  { signal := TradingSignal.HOLD
    confidence := 0
    reasoning := "Analysis Error: " ++ e
    stop_loss := none
    take_profit := none
    position_size := 0 }

/-- try/except wrapper shared by both strategies' analyze implementations:
a successful body is returned as is, an internal fault is converted by the
strategy's handler. -/
def analyzeHandled (handler : String → TradingDecision)
    (r : Except String TradingDecision) : TradingDecision :=
  match r with
  | Except.ok d => d
  | Except.error e => handler e

/-- ConservativeTrendStrategy.analyze. -/
def ConservativeTrendStrategy.analyze (symbol : String)
    (market_data : MarketData) (ind : TechnicalIndicators)
    (news : Option NewsAnalysis) : TradingDecision :=
  analyzeHandled ConservativeTrendStrategy.errorDecision
    (ConservativeTrendStrategy.analyzeCore symbol market_data ind news)

/-- moderate/config.py ModerateConfig (take_profit_ratio spelled
take_profit_quot, min_volume_ratio spelled min_volume_quot;
partial_profit_levels, scale_in_enabled and max_scale_in_attempts are not
read by any embedded operation and are omitted). -/
structure ModerateConfig where
  max_position_size : ℚ
  min_position_size : ℚ
  macd_fast_period : ℕ
  macd_slow_period : ℕ
  macd_signal_period : ℕ
  macd_threshold : ℚ
  bb_period : ℕ
  bb_deviation : ℚ
  bb_breakout_threshold : ℚ
  bb_oversold_threshold : ℚ
  rsi_period : ℕ
  rsi_overbought : ℚ
  rsi_oversold : ℚ
  rsi_neutral_upper : ℚ
  rsi_neutral_lower : ℚ
  stop_loss_atr_multiplier : ℚ
  take_profit_quot : ℚ
  trailing_stop_enabled : Bool
  trailing_stop_distance : ℚ
  max_atr_percentage : ℚ
  min_atr_percentage : ℚ
  volume_confirmation_enabled : Bool
  min_volume_quot : ℚ
  volume_spike_threshold : ℚ
  min_news_sentiment : ℤ
  critical_news_block : Bool
  min_confidence_buy : ℚ
  min_confidence_sell : ℚ
  enable_trend_filter : Bool
  trend_ma_period : ℕ

/-- moderate/config.py MODERATE_CONFIG (defaults). -/
def MODERATE_CONFIG : ModerateConfig :=
  { max_position_size := 8/100
    min_position_size := 2/100
    macd_fast_period := 12
    macd_slow_period := 26
    macd_signal_period := 9
    macd_threshold := 1/10000
    bb_period := 20
    bb_deviation := 2
    bb_breakout_threshold := 80
    bb_oversold_threshold := 20
    rsi_period := 14
    rsi_overbought := 70
    rsi_oversold := 30
    rsi_neutral_upper := 60
    rsi_neutral_lower := 40
    stop_loss_atr_multiplier := 3/2
    take_profit_quot := 5/2
    trailing_stop_enabled := true
    trailing_stop_distance := 1
    max_atr_percentage := 4
    min_atr_percentage := 1/2
    volume_confirmation_enabled := true
    min_volume_quot := 12/10
    volume_spike_threshold := 2
    min_news_sentiment := -2
    critical_news_block := true
    min_confidence_buy := 65/100
    min_confidence_sell := 60/100
    enable_trend_filter := true
    trend_ma_period := 50 }

/-- base_strategy.TechnicalAnalysisHelpers.is_bullish_trend. -/
def TechnicalAnalysisHelpers.is_bullish_trend (ind : TechnicalIndicators) : Bool :=
  decide (ind.ma20 > ind.ma50 ∧ ind.ma50 > ind.ma200 ∧ ind.macd_histogram > 0)

/-- base_strategy.TechnicalAnalysisHelpers.is_bearish_trend. -/
def TechnicalAnalysisHelpers.is_bearish_trend (ind : TechnicalIndicators) : Bool :=
  decide (ind.ma20 < ind.ma50 ∧ ind.ma50 < ind.ma200 ∧ ind.macd_histogram < 0)

/-- ModerateMomentumStrategy._analyze_macd_momentum. -/
def ModerateMomentumStrategy.analyze_macd_momentum (ind : TechnicalIndicators) :
    String × ℚ :=
  let macd_hist := ind.macd_histogram
  let macd_line := ind.macd
  let macd_sig := ind.macd_signal
  let strength := min (|macd_hist| / MODERATE_CONFIG.macd_threshold) 1
  if macd_hist > MODERATE_CONFIG.macd_threshold ∧ macd_line > macd_sig then
    if macd_hist > 0 then ("bullish_strong", min (strength * (12/10)) 1)
    else ("bullish", strength)
  else if macd_hist < -MODERATE_CONFIG.macd_threshold ∧ macd_line < macd_sig then
    if macd_hist < 0 then ("bearish_strong", min (strength * (12/10)) 1)
    else ("bearish", strength)
  else ("neutral", 3/10)

/-- ModerateMomentumStrategy._analyze_bollinger_bands. -/
def ModerateMomentumStrategy.analyze_bollinger_bands (ind : TechnicalIndicators) :
    String × ℚ :=
  let bb_position := ind.bb_position
  if bb_position ≤ MODERATE_CONFIG.bb_oversold_threshold then
    ("oversold", min ((MODERATE_CONFIG.bb_oversold_threshold - bb_position) / 20) 1)
  else if bb_position ≥ MODERATE_CONFIG.bb_breakout_threshold then
    if bb_position ≥ 95 then ("breakout", 8/10)
    else ("overbought", min ((bb_position - MODERATE_CONFIG.bb_breakout_threshold) / 20) 1)
  else if MODERATE_CONFIG.bb_oversold_threshold < bb_position ∧
      bb_position < MODERATE_CONFIG.bb_breakout_threshold then
    if bb_position < 50 then ("below_middle", 4/10) else ("above_middle", 4/10)
  else ("neutral", 3/10)

/-- ModerateMomentumStrategy._check_volume_confirmation. -/
def ModerateMomentumStrategy.check_volume_confirmation (ind : TechnicalIndicators) :
    Bool :=
  if ¬MODERATE_CONFIG.volume_confirmation_enabled then true
  else if ind.volume_quot ≥ MODERATE_CONFIG.volume_spike_threshold then true
  else decide (ind.volume_quot ≥ MODERATE_CONFIG.min_volume_quot)

/-- ModerateMomentumStrategy._is_volatility_acceptable. -/
def ModerateMomentumStrategy.is_volatility_acceptable (ind : TechnicalIndicators) :
    Bool :=
  decide (MODERATE_CONFIG.min_atr_percentage ≤ ind.atr_percentage ∧
    ind.atr_percentage ≤ MODERATE_CONFIG.max_atr_percentage)

/-- ModerateMomentumStrategy._get_trend_direction. -/
def ModerateMomentumStrategy.get_trend_direction (ind : TechnicalIndicators) :
    String :=
  if ¬MODERATE_CONFIG.enable_trend_filter then "neutral"
  else if TechnicalAnalysisHelpers.is_bullish_trend ind then "bullish"
  else if TechnicalAnalysisHelpers.is_bearish_trend ind then "bearish"
  else "neutral"

/-- ModerateMomentumStrategy._check_news_sentiment. -/
def ModerateMomentumStrategy.check_news_sentiment (news : Option NewsAnalysis) :
    Bool :=
  match news with
  | none => true
  | some n =>
    if MODERATE_CONFIG.critical_news_block && n.is_critical then false
    else decide (n.sentiment_score ≥ MODERATE_CONFIG.min_news_sentiment)

/-- The if/elif cascade of ModerateMomentumStrategy._combine_momentum_signals
before the final confidence clamp and the minimum-confidence demotion:
raw signal, raw confidence and the reasons list. -/
def ModerateMomentumStrategy.combine_momentum_signals_pre (macd_sig : String)
    (macd_strength : ℚ) (bb_sig : String) (bb_strength : ℚ)
    (volume_confirmed volatility_ok : Bool) (trend_direction : String)
    (news_ok : Bool) : TradingSignal × ℚ × List String :=
  let base_confidence : ℚ := 1/2
  if (macd_sig = "bullish" ∨ macd_sig = "bullish_strong") ∧
      (bb_sig = "oversold" ∨ bb_sig = "below_middle") ∧
      volatility_ok ∧ news_ok then
    let confidence := base_confidence + macd_strength * (3/10) + bb_strength * (2/10)
    let cr1 : ℚ × List String :=
      if volume_confirmed then (confidence + 1/10, ["Volume confirmed"])
      else (confidence, [])
    let cr2 : ℚ × List String :=
      if trend_direction = "bullish" then (cr1.1 + 15/100, cr1.2 ++ ["Bullish trend"])
      else cr1
    let cr3 : ℚ × List String :=
      if macd_sig = "bullish_strong" then
        (cr2.1 + 5/100, cr2.2 ++ ["Strong MACD momentum"])
      else cr2
    (TradingSignal.BUY, cr3.1,
      cr3.2 ++ ["MACD " ++ macd_sig, "BB " ++ bb_sig, "Volatility OK"])
  else if macd_sig = "bullish_strong" ∧ bb_sig = "oversold" ∧
      volume_confirmed ∧ volatility_ok ∧ trend_direction = "bullish" ∧ news_ok then
    (TradingSignal.STRONG_BUY, min (85/100 + macd_strength * (15/100)) (95/100),
      ["Strong MACD + BB oversold", "Volume spike", "Bullish trend", "All filters OK"])
  else if (macd_sig = "bearish" ∨ macd_sig = "bearish_strong") ∧
      (bb_sig = "overbought" ∨ bb_sig = "above_middle") ∧ volatility_ok then
    let confidence := base_confidence + macd_strength * (25/100) + bb_strength * (2/10)
    let cr1 : ℚ × List String :=
      if trend_direction = "bearish" then (confidence + 1/10, ["Bearish trend"])
      else (confidence, [])
    let cr2 : ℚ × List String :=
      if ¬news_ok then (cr1.1 + 1/10, cr1.2 ++ ["Negative news"])
      else cr1
    (TradingSignal.SELL, cr2.1, cr2.2 ++ ["MACD " ++ macd_sig, "BB " ++ bb_sig])
  else if bb_sig = "breakout" ∧ (macd_sig = "bullish" ∨ macd_sig = "bullish_strong") ∧
      volume_confirmed then
    (TradingSignal.BUY, 75/100, ["BB Breakout + MACD bullish", "Volume confirmation"])
  else
    let reasons :=
      (if ¬volatility_ok then ["High volatility"] else []) ++
      (if ¬news_ok then ["Negative news"] else []) ++
      (if ¬volume_confirmed ∧ MODERATE_CONFIG.volume_confirmation_enabled then
        ["Low volume"] else []) ++
      (if macd_sig = "neutral" ∧ bb_sig = "neutral" then ["No clear signals"] else [])
    let reasons := if reasons = [] then ["Mixed signals"] else reasons
    (TradingSignal.HOLD, (3/10 : ℚ), reasons)

/-- ModerateMomentumStrategy._combine_momentum_signals: the cascade above,
followed by the confidence clamp to [0,1] and the minimum-confidence
demotion to HOLD. -/
def ModerateMomentumStrategy.combine_momentum_signals (macd_sig : String)
    (macd_strength : ℚ) (bb_sig : String) (bb_strength : ℚ)
    (volume_confirmed volatility_ok : Bool) (trend_direction : String)
    (news_ok : Bool) : TradingSignal × ℚ × String :=
  let pre := ModerateMomentumStrategy.combine_momentum_signals_pre macd_sig
    macd_strength bb_sig bb_strength volume_confirmed volatility_ok
    trend_direction news_ok
  let confidence := max 0 (min pre.2.1 1)
  let sr : TradingSignal × List String :=
    if pre.1 = TradingSignal.BUY ∨ pre.1 = TradingSignal.STRONG_BUY then
      if confidence < MODERATE_CONFIG.min_confidence_buy then
        (TradingSignal.HOLD,
          pre.2.2 ++ ["Confidence too low (" ++ fmtQ confidence ++ ")"])
      else (pre.1, pre.2.2)
    else if pre.1 = TradingSignal.SELL then
      if confidence < MODERATE_CONFIG.min_confidence_sell then
        (TradingSignal.HOLD,
          pre.2.2 ++ ["Confidence too low (" ++ fmtQ confidence ++ ")"])
      else (pre.1, pre.2.2)
    else (pre.1, pre.2.2)
  (sr.1, confidence, String.intercalate " | " sr.2)

/-- ModerateMomentumStrategy._calculate_adaptive_position_size. -/
def ModerateMomentumStrategy.calculate_adaptive_position_size
    (signal : TradingSignal) (confidence atr_percentage : ℚ) : ℚ :=
  if ¬(signal = TradingSignal.BUY ∨ signal = TradingSignal.STRONG_BUY) then 0
  else
    let base_size := MODERATE_CONFIG.min_position_size +
      (MODERATE_CONFIG.max_position_size - MODERATE_CONFIG.min_position_size) *
        confidence
    let volatility_factor : ℚ :=
      if atr_percentage > 3 then 7/10
      else if atr_percentage > 2 then 85/100
      else 1
    let base_size :=
      if signal = TradingSignal.STRONG_BUY then base_size * (12/10) else base_size
    let adjusted_size := base_size * volatility_factor
    max MODERATE_CONFIG.min_position_size
      (min adjusted_size MODERATE_CONFIG.max_position_size)

/-- ModerateMomentumStrategy._calculate_dynamic_stop_loss. -/
def ModerateMomentumStrategy.calculate_dynamic_stop_loss (price : ℚ)
    (signal : TradingSignal) (atr_percentage : ℚ) : Option ℚ :=
  if ¬(signal = TradingSignal.BUY ∨ signal = TradingSignal.STRONG_BUY) then none
  else
    let atr_estimate := price * (atr_percentage / 100)
    let stop_distance := atr_estimate * MODERATE_CONFIG.stop_loss_atr_multiplier
    let stop_distance :=
      if atr_percentage > 3 then stop_distance * (8/10) else stop_distance
    some (price - stop_distance)

/-- ModerateMomentumStrategy._calculate_take_profit (a stop_loss of None or
0.0 is falsy and yields None). -/
def ModerateMomentumStrategy.calculate_take_profit (price : ℚ)
    (stop_loss : Option ℚ) (signal : TradingSignal) : Option ℚ :=
  if ¬(signal = TradingSignal.BUY ∨ signal = TradingSignal.STRONG_BUY) ∨
      ¬truthyQ stop_loss then none
  else
    let risk_distance := price - stop_loss.getD 0
    let reward_distance := risk_distance * MODERATE_CONFIG.take_profit_quot
    some (price + reward_distance)

/-- Body of ModerateMomentumStrategy.analyze (the try block); the embedded
operations are total, so the body always succeeds. -/
def ModerateMomentumStrategy.analyzeCore (_symbol : String)
    (market_data : MarketData) (ind : TechnicalIndicators)
    (news : Option NewsAnalysis) : Except String TradingDecision :=
  let macd_pair := ModerateMomentumStrategy.analyze_macd_momentum ind
  let bb_pair := ModerateMomentumStrategy.analyze_bollinger_bands ind
  let volume_confirmed := ModerateMomentumStrategy.check_volume_confirmation ind
  let volatility_ok := ModerateMomentumStrategy.is_volatility_acceptable ind
  let trend_direction := ModerateMomentumStrategy.get_trend_direction ind
  let news_sentiment_ok := ModerateMomentumStrategy.check_news_sentiment news
  let combined :=
    ModerateMomentumStrategy.combine_momentum_signals macd_pair.1 macd_pair.2
      bb_pair.1 bb_pair.2 volume_confirmed volatility_ok trend_direction
      news_sentiment_ok
  let final_signal := combined.1
  let confidence := combined.2.1
  let position_size := ModerateMomentumStrategy.calculate_adaptive_position_size
    final_signal confidence ind.atr_percentage
  let stop_loss := ModerateMomentumStrategy.calculate_dynamic_stop_loss
    market_data.price final_signal ind.atr_percentage
  let take_profit := ModerateMomentumStrategy.calculate_take_profit
    market_data.price stop_loss final_signal
  Except.ok
    { signal := final_signal
      confidence := confidence
      reasoning := combined.2.2
      stop_loss := stop_loss
      take_profit := take_profit
      position_size := position_size }

/-- The except-handler of ModerateMomentumStrategy.analyze. -/
def ModerateMomentumStrategy.errorDecision (e : String) : TradingDecision :=
  { signal := TradingSignal.HOLD
    confidence := 0
    reasoning := "Analysis Error: " ++ e
    stop_loss := none
    take_profit := none
    position_size := 0 }

/-- ModerateMomentumStrategy.analyze. -/
def ModerateMomentumStrategy.analyze (symbol : String) (market_data : MarketData)
    (ind : TechnicalIndicators) (news : Option NewsAnalysis) : TradingDecision :=
  analyzeHandled ModerateMomentumStrategy.errorDecision
    (ModerateMomentumStrategy.analyzeCore symbol market_data ind news)

/-- base_strategy.StrategyPosition. -/
structure StrategyPosition where
  symbol : String
  entry_price : ℚ
  quantity : ℚ
  entry_time : ℤ
  stop_loss : Option ℚ
  take_profit : Option ℚ
  reasoning : String
deriving DecidableEq

/-- base_strategy.StrategyPosition.current_value. -/
def StrategyPosition.current_value (p : StrategyPosition) : ℚ :=
  p.quantity * p.entry_price

/-- base_strategy.StrategyPosition.calculate_pnl. -/
def StrategyPosition.calculate_pnl (p : StrategyPosition) (current_price : ℚ) : ℚ :=
  (current_price - p.entry_price) * p.quantity

/-- The BaseStrategy fields consulted by validate_signal: enabled flag,
open-position ledger size, position cap and minimum confidence (the config
defaults are enabled=True, max_positions=5, min_confidence=0.6). -/
structure BaseStrategyState where
  name : String
  is_enabled : Bool
  positions : List (String × StrategyPosition)
  max_positions : ℕ
  min_confidence : ℚ

/-- base_strategy.BaseStrategy.validate_signal. -/
def BaseStrategy.validate_signal (st : BaseStrategyState)
    (decision : TradingDecision) (_symbol : String) : Bool :=
  if ¬st.is_enabled then false
  else if (decision.signal = TradingSignal.BUY ∨
      decision.signal = TradingSignal.STRONG_BUY) ∧
      st.positions.length ≥ st.max_positions then false
  else if decision.confidence < st.min_confidence then false
  else if decision.position_size > 1 ∨ decision.position_size ≤ 0 then false
  else true

/-- base_strategy.BaseStrategy.update_position: exit check against the
strategy's own ledger (keyed by symbol).  A stop_loss/take_profit of None or
0.0 is falsy and is not checked. -/
def BaseStrategy.update_position (positions : List (String × StrategyPosition))
    (symbol : String) (current_price : ℚ) : Option TradingDecision :=
  match positions.lookup symbol with
  | none => none
  | some position =>
    if truthyQ position.stop_loss ∧ current_price ≤ position.stop_loss.getD 0 then
      some { signal := TradingSignal.SELL
             confidence := 1
             reasoning := "Stop loss triggered at " ++ fmtQ current_price
             stop_loss := none
             take_profit := none
             position_size := 1 }
    else if truthyQ position.take_profit ∧
        current_price ≥ position.take_profit.getD 0 then
      some { signal := TradingSignal.SELL
             confidence := 1
             reasoning := "Take profit triggered at " ++ fmtQ current_price
             stop_loss := none
             take_profit := none
             position_size := 1 }
    else none

/-- Python dict assignment d[k] = v on a dict modelled as an association
list: replace in place when the key exists, append otherwise. -/
def dictInsert {β : Type} (l : List (String × β)) (k : String) (v : β) :
    List (String × β) :=
  if (l.lookup k).isSome then
    l.map (fun kv => if kv.1 = k then (k, v) else kv)
  else l ++ [(k, v)]

/-- portfolio_simulator.SimulationPosition. -/
structure SimulationPosition where
  symbol : String
  strategy_name : String
  entry_price : ℚ
  quantity : ℚ
  entry_time : ℤ
  stop_loss : Option ℚ
  take_profit : Option ℚ
deriving DecidableEq

/-- portfolio_simulator.SimulationPosition.current_value (the position's
entry value: quantity times entry price). -/
def SimulationPosition.current_value (p : SimulationPosition) : ℚ :=
  p.quantity * p.entry_price

/-- portfolio_simulator.SimulationPosition.calculate_pnl. -/
def SimulationPosition.calculate_pnl (p : SimulationPosition)
    (current_price : ℚ) : ℚ :=
  (current_price - p.entry_price) * p.quantity

/-- One entry of PortfolioSimulator.trade_history.  BUY entries carry no
pnl/reason/hold_duration keys and SELL entries no reasoning key; absent
keys are modelled with none / "" / 0. -/
structure SimTradeRecord where
  timestamp : ℤ
  symbol : String
  strategy : String
  action : String
  price : ℚ
  quantity : ℚ
  value : ℚ
  pnl : Option ℚ := none
  reason : String := ""
  reasoning : String := ""
  hold_duration : ℤ := 0
deriving DecidableEq

/-- One entry of PortfolioSimulator.balance_history. -/
structure BalanceRecord where
  timestamp : ℤ
  total_balance : ℚ
  cash : ℚ
  positions_value : ℚ
  positions_count : ℕ
deriving DecidableEq

/-- The mutable state of portfolio_simulator.PortfolioSimulator.  The
strategies dict is passed separately to the operations that use it, since
its values are functions. -/
structure PortfolioSimulator where
  initial_balance : ℚ
  current_balance : ℚ
  cash : ℚ
  max_positions : ℕ
  positions : List (String × SimulationPosition)
  trade_history : List SimTradeRecord
  balance_history : List BalanceRecord
  peak_balance : ℚ
  max_drawdown : ℚ
deriving DecidableEq

/-- PortfolioSimulator.__init__ (datetime.now start_time omitted). -/
def PortfolioSimulator.mkInit (initial_balance : ℚ) (max_positions : ℕ) :
    PortfolioSimulator :=
  { initial_balance := initial_balance
    current_balance := initial_balance
    cash := initial_balance
    max_positions := max_positions
    positions := []
    trade_history := []
    balance_history := []
    peak_balance := initial_balance
    max_drawdown := 0 }

/-- A strategy as seen by the simulator: its analyze entry point. -/
def StrategyFun : Type :=
  String → MarketData → TechnicalIndicators → Option NewsAnalysis → TradingDecision

/-- Stop-loss trigger used by PortfolioSimulator._update_positions
(None and 0.0 stop_loss are falsy). -/
def SimulationPosition.stopHit (p : SimulationPosition) (price : ℚ) : Bool :=
  truthyQ p.stop_loss && decide (price ≤ p.stop_loss.getD 0)

/-- Take-profit trigger used by PortfolioSimulator._update_positions. -/
def SimulationPosition.tpHit (p : SimulationPosition) (price : ℚ) : Bool :=
  truthyQ p.take_profit && decide (price ≥ p.take_profit.getD 0)

/-- PortfolioSimulator._close_position: realize the position's value in
cash and append a SELL record.  The caller removes the entry from the
positions dict afterwards, exactly as in the source. -/
def PortfolioSimulator.close_position (st : PortfolioSimulator)
    (position_id : String) (current_price : ℚ) (reason : String) (now : ℤ) :
    PortfolioSimulator :=
  match st.positions.lookup position_id with
  | none => st
  | some position =>
    let close_value := position.quantity * current_price
    let pnl := position.calculate_pnl current_price
    { st with
      cash := st.cash + close_value
      trade_history := st.trade_history ++
        [{ timestamp := now
           symbol := position.symbol
           strategy := position.strategy_name
           action := "SELL"
           price := current_price
           quantity := position.quantity
           value := close_value
           pnl := some pnl
           reason := reason
           hold_duration := (now - position.entry_time) / 86400 }] }

/-- PortfolioSimulator._update_positions: close every position on the
symbol whose stop-loss (checked first) or take-profit triggers, then
delete the closed entries. -/
def PortfolioSimulator.update_positions (st : PortfolioSimulator)
    (symbol : String) (current_price : ℚ) (now : ℤ) : PortfolioSimulator :=
  let toClose := st.positions.filter (fun kv =>
    kv.2.symbol = symbol ∧
      (kv.2.stopHit current_price || kv.2.tpHit current_price))
  let st1 := toClose.foldl (fun acc kv =>
    acc.close_position kv.1 current_price
      (if kv.2.stopHit current_price then "Stop-Loss" else "Take-Profit") now) st
  { st1 with positions := st1.positions.filter (fun kv =>
      ¬(toClose.map (fun c => c.1)).contains kv.1) }

/-- PortfolioSimulator._get_position. -/
def PortfolioSimulator.get_position (st : PortfolioSimulator)
    (symbol strategy_name : String) : Option SimulationPosition :=
  (st.positions.find? (fun kv =>
    kv.2.symbol = symbol ∧ kv.2.strategy_name = strategy_name)).map
      (fun kv => kv.2)

/-- PortfolioSimulator._open_long_position.  The position id is built from
symbol, strategy and the current time, as in the source. -/
def PortfolioSimulator.open_long_position (st : PortfolioSimulator)
    (symbol strategy_name : String) (decision : TradingDecision)
    (current_price : ℚ) (now : ℤ) : PortfolioSimulator :=
  if (st.get_position symbol strategy_name).isSome then st
  else if st.positions.length ≥ st.max_positions then st
  else
    let position_value := st.current_balance * decision.position_size
    let quantity := position_value / current_price
    if position_value > st.cash then st
    else
      let position_id := symbol ++ "_" ++ strategy_name ++ "_" ++ toString now
      let position : SimulationPosition :=
        { symbol := symbol
          strategy_name := strategy_name
          entry_price := current_price
          quantity := quantity
          entry_time := now
          stop_loss := decision.stop_loss
          take_profit := decision.take_profit }
      { st with
        positions := dictInsert st.positions position_id position
        cash := st.cash - position_value
        trade_history := st.trade_history ++
          [{ timestamp := now
             symbol := symbol
             strategy := strategy_name
             action := "BUY"
             price := current_price
             quantity := quantity
             value := position_value
             reasoning := decision.reasoning }] }

/-- PortfolioSimulator._close_positions_for_symbol. -/
def PortfolioSimulator.close_positions_for_symbol (st : PortfolioSimulator)
    (symbol : String) (current_price : ℚ) (reason : String) (now : ℤ) :
    PortfolioSimulator :=
  let toClose := st.positions.filter (fun kv => kv.2.symbol = symbol)
  let st1 := toClose.foldl (fun acc kv =>
    acc.close_position kv.1 current_price reason now) st
  { st1 with positions := st1.positions.filter (fun kv =>
      ¬(toClose.map (fun c => c.1)).contains kv.1) }

/-- PortfolioSimulator._process_trading_decision.  Note that validate_signal
is never consulted here: the dispatch looks only at the signal itself. -/
def PortfolioSimulator.process_trading_decision (st : PortfolioSimulator)
    (symbol strategy_name : String) (decision : TradingDecision)
    (current_price : ℚ) (now : ℤ) : PortfolioSimulator :=
  if decision.signal = TradingSignal.BUY then
    st.open_long_position symbol strategy_name decision current_price now
  else if decision.signal = TradingSignal.SELL then
    st.close_positions_for_symbol symbol current_price "Strategy Signal" now
  else if decision.signal = TradingSignal.STRONG_BUY then
    let enhanced_decision : TradingDecision :=
      { decision with position_size := min (decision.position_size * (3/2)) (10/100) }
    st.open_long_position symbol strategy_name enhanced_decision current_price now
  else st

/-- Entry value of all open positions, as summed by
PortfolioSimulator._update_portfolio_value. -/
def PortfolioSimulator.positionsValue (st : PortfolioSimulator) : ℚ :=
  (st.positions.map (fun kv => kv.2.current_value)).sum

/-- PortfolioSimulator._update_portfolio_value: total balance is cash plus
the entry value (quantity times entry price) of the open positions. -/
def PortfolioSimulator.update_portfolio_value (st : PortfolioSimulator)
    (now : ℤ) : PortfolioSimulator :=
  let positions_value := st.positionsValue
  let current_balance := st.cash + positions_value
  let peak_balance :=
    if current_balance > st.peak_balance then current_balance else st.peak_balance
  let current_drawdown := (peak_balance - current_balance) / peak_balance
  let max_drawdown :=
    if current_drawdown > st.max_drawdown then current_drawdown else st.max_drawdown
  { st with
    current_balance := current_balance
    peak_balance := peak_balance
    max_drawdown := max_drawdown
    balance_history := st.balance_history ++
      [{ timestamp := now
         total_balance := current_balance
         cash := st.cash
         positions_value := positions_value
         positions_count := st.positions.length }] }

/-- PortfolioSimulator._apply_risk_management: above a 15% drawdown, every
open position is closed at its entry price and removed. -/
def PortfolioSimulator.apply_risk_management (st : PortfolioSimulator)
    (now : ℤ) : PortfolioSimulator :=
  if st.max_drawdown > 15/100 then
    let st1 := st.positions.foldl (fun acc kv =>
      acc.close_position kv.1 kv.2.entry_price "Risk Management" now) st
    { st1 with positions := [] }
  else st

/-- PortfolioSimulator.process_market_data, with the strategies dict passed
explicitly (name, analyze).  The per-strategy try/except cannot fire in the
embedding because strategy evaluation is total. -/
def PortfolioSimulator.process_market_data
    (strategies : List (String × StrategyFun)) (st : PortfolioSimulator)
    (symbol : String) (market_data : MarketData) (ind : TechnicalIndicators)
    (news : Option NewsAnalysis) (now : ℤ) : PortfolioSimulator :=
  let current_price := market_data.price
  let st1 := st.update_positions symbol current_price now
  let st2 := strategies.foldl (fun acc kv =>
    acc.process_trading_decision symbol kv.1 (kv.2 symbol market_data ind news)
      current_price now) st1
  let st3 := st2.update_portfolio_value now
  st3.apply_risk_management now

/-- backtester.BacktestTrade (result fields carry their dataclass
defaults until calculate_results runs). -/
structure BacktestTrade where
  strategy_name : String
  symbol : String
  entry_time : ℤ
  exit_time : Option ℤ
  entry_price : ℚ
  exit_price : Option ℚ
  quantity : ℚ
  signal : TradingSignal
  confidence : ℚ
  reasoning : String
  stop_loss : Option ℚ
  take_profit : Option ℚ
  pnl : ℚ := 0
  pnl_percentage : ℚ := 0
  duration_hours : ℚ := 0
  exit_reason : String := ""
  is_winner : Bool := false
deriving DecidableEq

/-- backtester.BacktestTrade.calculate_results: the results are computed
only when exit_price is truthy (an exit price of 0.0 is falsy, like None)
and exit_time is set; otherwise the fields keep their previous values. -/
def BacktestTrade.calculate_results (t : BacktestTrade) : BacktestTrade :=
  if truthyQ t.exit_price ∧ t.exit_time ≠ none then
    let ep := t.exit_price.getD 0
    let pnl := (ep - t.entry_price) * t.quantity
    { t with
      pnl := pnl
      pnl_percentage := (ep - t.entry_price) / t.entry_price * 100
      duration_hours := ((t.exit_time.getD 0 - t.entry_time : ℤ) : ℚ) / 3600
      is_winner := decide (pnl > 0) }
  else t

/-- Python str() of a TradingSignal enum member. -/
def TradingSignal.pyStr : TradingSignal → String
  | TradingSignal.STRONG_BUY => "TradingSignal.STRONG_BUY"
  | TradingSignal.BUY => "TradingSignal.BUY"
  | TradingSignal.HOLD => "TradingSignal.HOLD"
  | TradingSignal.SELL => "TradingSignal.SELL"
  | TradingSignal.STRONG_SELL => "TradingSignal.STRONG_SELL"

/-- The mutable state of backtester.SimpleBacktester, with the strategies
dict passed separately to the operations that use it. -/
structure SimpleBacktester where
  initial_capital : ℚ
  current_capital : ℚ
  active_trades : List (String × BacktestTrade)
  completed_trades : List BacktestTrade
  equity_history : List (ℤ × ℚ)
deriving DecidableEq

/-- SimpleBacktester.__init__. -/
def SimpleBacktester.mkInit (initial_capital : ℚ) : SimpleBacktester :=
  { initial_capital := initial_capital
    current_capital := initial_capital
    active_trades := []
    completed_trades := []
    equity_history := [] }

/-- A strategy as seen by the backtester: name, analyze and
validate_signal. -/
structure BtStrategy where
  name : String
  analyze : String → MarketData → TechnicalIndicators → Option NewsAnalysis →
    TradingDecision
  validate_signal : TradingDecision → String → Bool

/-- Historical input of the backtester: symbol -> list of MarketData. -/
def HistoricalData : Type := List (String × List MarketData)

/-- SimpleBacktester._create_mock_indicators.  Python's salted string hash
is modelled by an explicit oracle parameter; Python `%` on ints agrees with
Int.emod for a positive modulus.  Divisions that would raise
ZeroDivisionError in Python (price 0) yield 0 in ℚ. -/
def SimpleBacktester.create_mock_indicators (hashOracle : String → ℤ → ℤ)
    (current_data : MarketData) (symbol : String)
    (data_series : List MarketData) (timestamp : ℤ) : TechnicalIndicators :=
  let recent_prices :=
    (data_series.filter (fun dp => decide (dp.timestamp ≤ timestamp))).map
      (fun dp => dp.price)
  let recent_prices := recent_prices.drop (recent_prices.length - 50)
  let ma20 :=
    if recent_prices.length ≥ 20 then
      (recent_prices.drop (recent_prices.length - 20)).sum / 20
    else current_data.price
  let ma50 :=
    if recent_prices.length ≥ 50 then recent_prices.sum / 50
    else current_data.price
  let ma200 := ma50
  let rsi : ℚ := 50 + ((hashOracle symbol timestamp) % 41 - 20 : ℤ)
  let macd := if ma50 > 0 then (ma20 - ma50) / ma50 else 0
  let macd_signal := macd * (9/10)
  let macd_histogram := macd - macd_signal
  let bb_upper := current_data.price * (102/100)
  let bb_lower := current_data.price * (98/100)
  let bb_position := (current_data.price - bb_lower) / (bb_upper - bb_lower) * 100
  let atr := current_data.price * (2/100)
  { rsi := rsi
    macd := macd
    macd_signal := macd_signal
    macd_histogram := macd_histogram
    ma20 := ma20
    ma50 := ma50
    ma200 := ma200
    bb_upper := bb_upper
    bb_lower := bb_lower
    bb_position := bb_position
    atr := atr
    atr_percentage := 2
    stoch_k := 50
    williams_r := -50
    volume_quot := 1 }

/-- SimpleBacktester._close_trade: finalize the trade record, return the
exit value to capital, move the trade to completed_trades and delete its
symbol from active_trades. -/
def SimpleBacktester.close_trade (st : SimpleBacktester) (trade : BacktestTrade)
    (exit_price : ℚ) (exit_time : ℤ) (exit_reason : String) : SimpleBacktester :=
  let trade1 := BacktestTrade.calculate_results
    { trade with
      exit_price := some exit_price
      exit_time := some exit_time
      exit_reason := exit_reason }
  { st with
    current_capital := st.current_capital + trade1.quantity * exit_price
    completed_trades := st.completed_trades ++ [trade1]
    active_trades := st.active_trades.filter (fun kv => kv.1 ≠ trade.symbol) }

/-- SimpleBacktester._check_exit_conditions. -/
def SimpleBacktester.check_exit_conditions
    (strategies : List (String × BtStrategy)) (st : SimpleBacktester)
    (symbol : String) (current_data : MarketData) (ind : TechnicalIndicators)
    (timestamp : ℤ) : SimpleBacktester :=
  match st.active_trades.lookup symbol with
  | none => st
  | some trade =>
    let current_price := current_data.price
    if truthyQ trade.stop_loss ∧ current_price ≤ trade.stop_loss.getD 0 then
      st.close_trade trade current_price timestamp "Stop Loss"
    else if truthyQ trade.take_profit ∧
        current_price ≥ trade.take_profit.getD 0 then
      st.close_trade trade current_price timestamp "Take Profit"
    else
      match strategies.lookup trade.strategy_name with
      | none => st
      | some strategy =>
        let decision := strategy.analyze symbol current_data ind none
        if decision.signal = TradingSignal.SELL ∨
            decision.signal = TradingSignal.STRONG_SELL then
          st.close_trade trade current_price timestamp
            ("Strategy Signal: " ++ decision.signal.pyStr)
        else st

/-- SimpleBacktester._open_trade. -/
def SimpleBacktester.open_trade (st : SimpleBacktester) (strategy : BtStrategy)
    (symbol : String) (market_data : MarketData) (_ind : TechnicalIndicators)
    (decision : TradingDecision) (timestamp : ℤ) : SimpleBacktester :=
  let available_capital := st.current_capital * (8/10)
  let position_value := available_capital * decision.position_size
  let quantity := position_value / market_data.price
  let trade : BacktestTrade :=
    { strategy_name := strategy.name
      symbol := symbol
      entry_time := timestamp
      exit_time := none
      entry_price := market_data.price
      exit_price := none
      quantity := quantity
      signal := decision.signal
      confidence := decision.confidence
      reasoning := decision.reasoning
      stop_loss := decision.stop_loss
      take_profit := decision.take_profit }
  { st with
    active_trades := dictInsert st.active_trades symbol trade
    current_capital := st.current_capital - position_value }

/-- SimpleBacktester._check_entry_signals (long-only: only BUY/STRONG_BUY
decisions that pass the strategy's validate_signal open a trade; the
try/except cannot fire in the embedding because strategy evaluation is
total). -/
def SimpleBacktester.check_entry_signals (st : SimpleBacktester)
    (strategy : BtStrategy) (symbol : String) (current_data : MarketData)
    (ind : TechnicalIndicators) (timestamp : ℤ) : SimpleBacktester :=
  let decision := strategy.analyze symbol current_data ind none
  if decision.signal = TradingSignal.BUY ∨
      decision.signal = TradingSignal.STRONG_BUY then
    if strategy.validate_signal decision symbol then
      st.open_trade strategy symbol current_data ind decision timestamp
    else st
  else st

/-- The per-strategy entry pass of SimpleBacktester._process_timestamp:
the entry check runs only while no trade is open on the symbol. -/
def SimpleBacktester.entry_step (symbol : String) (current_data : MarketData)
    (ind : TechnicalIndicators) (timestamp : ℤ) (acc2 : SimpleBacktester)
    (skv : String × BtStrategy) : SimpleBacktester :=
  if (acc2.active_trades.lookup symbol).isNone then
    acc2.check_entry_signals skv.2 symbol current_data ind timestamp
  else acc2

/-- SimpleBacktester._process_timestamp: per symbol, run the exit check and
then, for each strategy in turn, the entry check, which is skipped while a
trade is open on the symbol. -/
def SimpleBacktester.process_timestamp (hashOracle : String → ℤ → ℤ)
    (strategies : List (String × BtStrategy)) (st : SimpleBacktester)
    (timestamp : ℤ) (historical_data : HistoricalData) : SimpleBacktester :=
  historical_data.foldl (fun acc kv =>
    let symbol := kv.1
    let data_series := kv.2
    match data_series.find? (fun dp => dp.timestamp = timestamp) with
    | none => acc
    | some current_data =>
      let ind := SimpleBacktester.create_mock_indicators hashOracle
        current_data symbol data_series timestamp
      let acc1 := SimpleBacktester.check_exit_conditions strategies acc symbol
        current_data ind timestamp
      strategies.foldl (SimpleBacktester.entry_step symbol current_data ind
        timestamp) acc1) st

/-- Last listed price for a symbol at or before end_date, as scanned by
SimpleBacktester._close_all_positions (reversed list, first hit). -/
def SimpleBacktester.lastPrice (historical_data : HistoricalData)
    (symbol : String) (end_date : ℤ) : Option ℚ :=
  (((historical_data.lookup symbol).getD []).reverse.find?
    (fun dp => decide (dp.timestamp ≤ end_date))).map (fun dp => dp.price)

/-- The loop body of SimpleBacktester._close_all_positions: close the
snapshotted trade at the last listed price at or before end_date with
reason "Backtest End" - but only when that price is truthy (found and
nonzero). -/
def SimpleBacktester.close_all_step (end_date : ℤ)
    (historical_data : HistoricalData) (acc : SimpleBacktester)
    (kv : String × BacktestTrade) : SimpleBacktester :=
  let last_price := SimpleBacktester.lastPrice historical_data kv.1 end_date
  if truthyQ last_price then
    acc.close_trade kv.2 (last_price.getD 0) end_date "Backtest End"
  else acc

/-- SimpleBacktester._close_all_positions. -/
def SimpleBacktester.close_all_positions (st : SimpleBacktester)
    (end_date : ℤ) (historical_data : HistoricalData) : SimpleBacktester :=
  st.active_trades.foldl
    (SimpleBacktester.close_all_step end_date historical_data) st

/-- SimpleBacktester._calculate_portfolio_value (the inner loop keeps the
last listed price at or before the timestamp; a price of 0.0 is falsy and
contributes nothing). -/
def SimpleBacktester.calculate_portfolio_value (st : SimpleBacktester)
    (timestamp : ℤ) (historical_data : HistoricalData) : ℚ :=
  st.active_trades.foldl (fun total kv =>
    let symbol_data := (historical_data.lookup kv.1).getD []
    let current_price := symbol_data.foldl (fun acc dp =>
      if dp.timestamp ≤ timestamp then some dp.price else acc)
      (none : Option ℚ)
    if truthyQ current_price then total + kv.2.quantity * (current_price.getD 0)
    else total) st.current_capital

/-- The sorted union of in-range timestamps collected by
SimpleBacktester.run_backtest. -/
def SimpleBacktester.collect_timestamps (historical_data : HistoricalData)
    (start_date end_date : ℤ) : List ℤ :=
  ((historical_data.map (fun kv =>
    (kv.2.filter (fun dp =>
      decide (start_date ≤ dp.timestamp) && decide (dp.timestamp ≤ end_date))).map
        (fun dp => dp.timestamp))).flatten.dedup).mergeSort (fun a b => a ≤ b)

/-- SimpleBacktester.run_backtest up to result generation: reset the state,
replay every collected timestamp in chronological order, record the equity
curve, and finally force-close the remaining trades. -/
def SimpleBacktester.run_backtest (hashOracle : String → ℤ → ℤ)
    (strategies : List (String × BtStrategy)) (st : SimpleBacktester)
    (historical_data : HistoricalData) (start_date end_date : ℤ) :
    SimpleBacktester :=
  let st0 : SimpleBacktester :=
    { st with
      current_capital := st.initial_capital
      active_trades := []
      completed_trades := []
      equity_history := [] }
  let sorted_timestamps :=
    SimpleBacktester.collect_timestamps historical_data start_date end_date
  let st1 := sorted_timestamps.foldl (fun acc timestamp =>
    let acc1 := SimpleBacktester.process_timestamp hashOracle strategies acc
      timestamp historical_data
    { acc1 with equity_history := acc1.equity_history ++
        [(timestamp, acc1.calculate_portfolio_value timestamp historical_data)] })
    st0
  st1.close_all_positions end_date historical_data

/-- The two strategy classes auto-discovered by the registry. -/
inductive StrategyClass
  | conservative
  | moderate
deriving DecidableEq

/-- The 'name' reported by get_parameters() of an instance of the class:
the strategy's own configured display name (CONSERVATIVE_PARAMS['name'],
MODERATE_PARAMS['name']), not the registry key. -/
def StrategyClass.get_parameters_name : StrategyClass → String
  | StrategyClass.conservative => "Conservative Trend Following"
  | StrategyClass.moderate => "Moderate Momentum Strategy"

/-- registry.StrategyRegistry._strategies after auto_discover. -/
def StrategyRegistry.autoRegistry : List (String × StrategyClass) :=
  [("conservative_trend", StrategyClass.conservative),
   ("moderate_momentum", StrategyClass.moderate)]

/-- registry.StrategyRegistry.create: None on an unknown name, otherwise
the constructed instance.  Both auto-discovered constructors always
succeed, so the except-branch (constructor failure -> None) is dead for
this registry.  The instance cache only stores the result and does not
change it. -/
def StrategyRegistry.create (reg : List (String × StrategyClass))
    (name : String) : Option StrategyClass :=
  match reg.lookup name with
  | none => none
  | some strategy_class => some strategy_class

/-- Scenario-A style indicators: oversold RSI, bullish MA50/MA200 trend,
in-band ATR, confirmed volume. -/
def indScenarioA : TechnicalIndicators :=
  { rsi := 30, macd := 0, macd_signal := 0, macd_histogram := 0,
    ma20 := 110, ma50 := 103, ma200 := 100, bb_upper := 0, bb_lower := 0,
    bb_position := 50, atr := 1000, atr_percentage := 2, stoch_k := 50,
    williams_r := -50, volume_quot := 3/2 }

/-- A market snapshot at price 50000. -/
def mdScenarioA : MarketData :=
  { symbol := "BTC", price := 50000, volume := 0, timestamp := 0,
    high_24h := 0, low_24h := 0, change_24h := 0 }

/-- Otherwise-bullish indicators whose atr_percentage (6) exceeds the
moderate strategy's [0.5, 4] volatility band, with the Bollinger position
in the breakout zone (96) and a volume spike (2). -/
def indVetoBypass : TechnicalIndicators :=
  { rsi := 50, macd := 1, macd_signal := 0, macd_histogram := 1,
    ma20 := 110, ma50 := 103, ma200 := 100, bb_upper := 0, bb_lower := 0,
    bb_position := 96, atr := 3000, atr_percentage := 6, stoch_k := 50,
    williams_r := -50, volume_quot := 2 }

/-- A ledger position whose stop loss (95) is crossed at price 90. -/
def posStopW : StrategyPosition :=
  { symbol := "BTC", entry_price := 100, quantity := 1, entry_time := 0,
    stop_loss := some 95, take_profit := some 112, reasoning := "" }

/-- The exit decision update_position produces when posStopW's stop loss
triggers at price 90. -/
def sellExitW : TradingDecision :=
  { signal := TradingSignal.SELL, confidence := 1,
    reasoning := "Stop loss triggered at " ++ fmtQ 90,
    stop_loss := none, take_profit := none, position_size := 1 }

theorem cons_analyze_confidence_eq (s : String) (md : MarketData)
    (ind : TechnicalIndicators) (news : Option NewsAnalysis) :
    (ConservativeTrendStrategy.analyze s md ind news).confidence =
      (ConservativeTrendStrategy.combine_signals
        (ConservativeTrendStrategy.is_trend_bullish ind)
        (ConservativeTrendStrategy.get_rsi_signal ind)
        (ConservativeTrendStrategy.is_volatility_acceptable ind)
        (ConservativeTrendStrategy.is_news_positive news)).2.1 := rfl

theorem cons_combine_conf_bounds (tb : Bool) (rs : String) (vo no_ : Bool) :
    0 ≤ (ConservativeTrendStrategy.combine_signals tb rs vo no_).2.1 ∧
    (ConservativeTrendStrategy.combine_signals tb rs vo no_).2.1 ≤ 1 := by
  unfold ConservativeTrendStrategy.combine_signals
  split_ifs <;> norm_num

theorem cons_cps_cases (sig : TradingSignal) (price : ℚ) :
    ((sig = TradingSignal.BUY ∨ sig = TradingSignal.STRONG_BUY) →
      ConservativeTrendStrategy.calculate_position_size sig price = 1/20) ∧
    (¬(sig = TradingSignal.BUY ∨ sig = TradingSignal.STRONG_BUY) →
      ConservativeTrendStrategy.calculate_position_size sig price = 0) := by
  unfold ConservativeTrendStrategy.calculate_position_size
  constructor <;> intro h
  · simp [h, CONSERVATIVE_CONFIG]
    norm_num
  · simp [h, CONSERVATIVE_CONFIG]

theorem update_position_exit_shape (positions : List (String × StrategyPosition))
    (symbol : String) (price : ℚ) (d : TradingDecision)
    (h : BaseStrategy.update_position positions symbol price = some d) :
    d.signal = TradingSignal.SELL ∧ d.confidence = 1 ∧ d.position_size = 1 := by
  unfold BaseStrategy.update_position at h
  rcases hm : positions.lookup symbol with _ | pos <;> rw [hm] at h
  · simp at h
  · simp only at h
    split_ifs at h with h1 h2 <;> first
      | (injection h with h; subst h; exact ⟨rfl, rfl, rfl⟩)
      | simp at h

theorem mod_combine_conf_bounds (ms : String) (mst : ℚ) (bs : String) (bst : ℚ)
    (vc vo : Bool) (td : String) (no_ : Bool) :
    0 ≤ (ModerateMomentumStrategy.combine_momentum_signals ms mst bs bst vc vo td no_).2.1 ∧
    (ModerateMomentumStrategy.combine_momentum_signals ms mst bs bst vc vo td no_).2.1 ≤ 1 := by
  unfold ModerateMomentumStrategy.combine_momentum_signals
  dsimp only
  exact ⟨le_max_left 0 _, max_le (by norm_num) (min_le_right _ 1)⟩

theorem mod_caps_cases (sig : TradingSignal) (conf atr : ℚ) :
    ((sig = TradingSignal.BUY ∨ sig = TradingSignal.STRONG_BUY) →
      0 < ModerateMomentumStrategy.calculate_adaptive_position_size sig conf atr ∧
      ModerateMomentumStrategy.calculate_adaptive_position_size sig conf atr ≤ 1) ∧
    (¬(sig = TradingSignal.BUY ∨ sig = TradingSignal.STRONG_BUY) →
      ModerateMomentumStrategy.calculate_adaptive_position_size sig conf atr = 0) := by
  unfold ModerateMomentumStrategy.calculate_adaptive_position_size
  constructor <;> intro h
  · simp only [h, not_true_eq_false, if_false, MODERATE_CONFIG]
    constructor
    · exact lt_of_lt_of_le (by norm_num) (le_max_left _ _)
    · exact max_le (by norm_num) (le_trans (min_le_right _ _) (by norm_num))
  · simp [h]

theorem cons_analyze_ranges (s : String) (md : MarketData)
    (ind : TechnicalIndicators) (news : Option NewsAnalysis) :
    0 ≤ (ConservativeTrendStrategy.analyze s md ind news).confidence ∧
    (ConservativeTrendStrategy.analyze s md ind news).confidence ≤ 1 ∧
    (((ConservativeTrendStrategy.analyze s md ind news).signal = TradingSignal.BUY ∨
      (ConservativeTrendStrategy.analyze s md ind news).signal = TradingSignal.STRONG_BUY) ↔
      (0 < (ConservativeTrendStrategy.analyze s md ind news).position_size ∧
       (ConservativeTrendStrategy.analyze s md ind news).position_size ≤ 1)) ∧
    (¬((ConservativeTrendStrategy.analyze s md ind news).signal = TradingSignal.BUY ∨
       (ConservativeTrendStrategy.analyze s md ind news).signal = TradingSignal.STRONG_BUY) →
      (ConservativeTrendStrategy.analyze s md ind news).position_size = 0) := by
  have hconf := cons_combine_conf_bounds
    (ConservativeTrendStrategy.is_trend_bullish ind)
    (ConservativeTrendStrategy.get_rsi_signal ind)
    (ConservativeTrendStrategy.is_volatility_acceptable ind)
    (ConservativeTrendStrategy.is_news_positive news)
  have hcps := cons_cps_cases
    (ConservativeTrendStrategy.combine_signals
      (ConservativeTrendStrategy.is_trend_bullish ind)
      (ConservativeTrendStrategy.get_rsi_signal ind)
      (ConservativeTrendStrategy.is_volatility_acceptable ind)
      (ConservativeTrendStrategy.is_news_positive news)).1 md.price
  refine ⟨hconf.1, hconf.2, ⟨fun hbuy => ?_, fun hps => ?_⟩, fun hnb => hcps.2 hnb⟩
  · have h20 : (ConservativeTrendStrategy.analyze s md ind news).position_size = 1/20 :=
      hcps.1 hbuy
    rw [h20]; norm_num
  · by_contra hbuy
    have h0 : (ConservativeTrendStrategy.analyze s md ind news).position_size = 0 :=
      hcps.2 hbuy
    rw [h0] at hps
    exact absurd hps.1 (lt_irrefl 0)

theorem mod_analyze_ranges (s : String) (md : MarketData)
    (ind : TechnicalIndicators) (news : Option NewsAnalysis) :
    0 ≤ (ModerateMomentumStrategy.analyze s md ind news).confidence ∧
    (ModerateMomentumStrategy.analyze s md ind news).confidence ≤ 1 ∧
    (((ModerateMomentumStrategy.analyze s md ind news).signal = TradingSignal.BUY ∨
      (ModerateMomentumStrategy.analyze s md ind news).signal = TradingSignal.STRONG_BUY) ↔
      (0 < (ModerateMomentumStrategy.analyze s md ind news).position_size ∧
       (ModerateMomentumStrategy.analyze s md ind news).position_size ≤ 1)) ∧
    (¬((ModerateMomentumStrategy.analyze s md ind news).signal = TradingSignal.BUY ∨
       (ModerateMomentumStrategy.analyze s md ind news).signal = TradingSignal.STRONG_BUY) →
      (ModerateMomentumStrategy.analyze s md ind news).position_size = 0) := by
  have hconf := mod_combine_conf_bounds
    (ModerateMomentumStrategy.analyze_macd_momentum ind).1
    (ModerateMomentumStrategy.analyze_macd_momentum ind).2
    (ModerateMomentumStrategy.analyze_bollinger_bands ind).1
    (ModerateMomentumStrategy.analyze_bollinger_bands ind).2
    (ModerateMomentumStrategy.check_volume_confirmation ind)
    (ModerateMomentumStrategy.is_volatility_acceptable ind)
    (ModerateMomentumStrategy.get_trend_direction ind)
    (ModerateMomentumStrategy.check_news_sentiment news)
  have hcps := mod_caps_cases
    (ModerateMomentumStrategy.combine_momentum_signals
      (ModerateMomentumStrategy.analyze_macd_momentum ind).1
      (ModerateMomentumStrategy.analyze_macd_momentum ind).2
      (ModerateMomentumStrategy.analyze_bollinger_bands ind).1
      (ModerateMomentumStrategy.analyze_bollinger_bands ind).2
      (ModerateMomentumStrategy.check_volume_confirmation ind)
      (ModerateMomentumStrategy.is_volatility_acceptable ind)
      (ModerateMomentumStrategy.get_trend_direction ind)
      (ModerateMomentumStrategy.check_news_sentiment news)).1
    (ModerateMomentumStrategy.combine_momentum_signals
      (ModerateMomentumStrategy.analyze_macd_momentum ind).1
      (ModerateMomentumStrategy.analyze_macd_momentum ind).2
      (ModerateMomentumStrategy.analyze_bollinger_bands ind).1
      (ModerateMomentumStrategy.analyze_bollinger_bands ind).2
      (ModerateMomentumStrategy.check_volume_confirmation ind)
      (ModerateMomentumStrategy.is_volatility_acceptable ind)
      (ModerateMomentumStrategy.get_trend_direction ind)
      (ModerateMomentumStrategy.check_news_sentiment news)).2.1
    ind.atr_percentage
  refine ⟨hconf.1, hconf.2, ⟨fun hbuy => hcps.1 hbuy, fun hps => ?_⟩,
    fun hnb => hcps.2 hnb⟩
  by_contra hbuy
  have h0 : (ModerateMomentumStrategy.analyze s md ind news).position_size = 0 :=
    hcps.2 hbuy
  rw [h0] at hps
  exact absurd hps.1 (lt_irrefl 0)

/-- C1 (amended): for every decision produced by analyze of either concrete
strategy, confidence lies in [0,1] and position_size lies in (0,1] exactly
when the signal is BUY or STRONG_BUY, otherwise it is 0; decisions returned
by update_position, however, are SELL exits carrying confidence 1.0 and
position_size 1.0 (close the full position), not 0. -/
theorem strategy_decision_ranges_amended :
    (∀ (s : String) (md : MarketData) (ind : TechnicalIndicators)
        (news : Option NewsAnalysis),
      0 ≤ (ConservativeTrendStrategy.analyze s md ind news).confidence ∧
      (ConservativeTrendStrategy.analyze s md ind news).confidence ≤ 1 ∧
      (((ConservativeTrendStrategy.analyze s md ind news).signal = TradingSignal.BUY ∨
        (ConservativeTrendStrategy.analyze s md ind news).signal = TradingSignal.STRONG_BUY) ↔
        (0 < (ConservativeTrendStrategy.analyze s md ind news).position_size ∧
         (ConservativeTrendStrategy.analyze s md ind news).position_size ≤ 1)) ∧
      (¬((ConservativeTrendStrategy.analyze s md ind news).signal = TradingSignal.BUY ∨
         (ConservativeTrendStrategy.analyze s md ind news).signal = TradingSignal.STRONG_BUY) →
        (ConservativeTrendStrategy.analyze s md ind news).position_size = 0)) ∧
    (∀ (s : String) (md : MarketData) (ind : TechnicalIndicators)
        (news : Option NewsAnalysis),
      0 ≤ (ModerateMomentumStrategy.analyze s md ind news).confidence ∧
      (ModerateMomentumStrategy.analyze s md ind news).confidence ≤ 1 ∧
      (((ModerateMomentumStrategy.analyze s md ind news).signal = TradingSignal.BUY ∨
        (ModerateMomentumStrategy.analyze s md ind news).signal = TradingSignal.STRONG_BUY) ↔
        (0 < (ModerateMomentumStrategy.analyze s md ind news).position_size ∧
         (ModerateMomentumStrategy.analyze s md ind news).position_size ≤ 1)) ∧
      (¬((ModerateMomentumStrategy.analyze s md ind news).signal = TradingSignal.BUY ∨
         (ModerateMomentumStrategy.analyze s md ind news).signal = TradingSignal.STRONG_BUY) →
        (ModerateMomentumStrategy.analyze s md ind news).position_size = 0)) ∧
    (∀ (positions : List (String × StrategyPosition)) (symbol : String)
        (price : ℚ) (d : TradingDecision),
      BaseStrategy.update_position positions symbol price = some d →
      d.signal = TradingSignal.SELL ∧ d.confidence = 1 ∧ d.position_size = 1) :=
  ⟨cons_analyze_ranges, mod_analyze_ranges, update_position_exit_shape⟩

/-- C1 counterexample to the claim as stated: at a concrete ledger with a
crossed stop loss, update_position returns a decision whose signal is SELL
(neither BUY nor STRONG_BUY) and whose position_size is 1, not 0. -/
theorem update_position_sell_size_one_counterexample :
    BaseStrategy.update_position [("BTC", posStopW)] "BTC" 90 = some sellExitW ∧
    sellExitW.signal ≠ TradingSignal.BUY ∧
    sellExitW.signal ≠ TradingSignal.STRONG_BUY ∧
    sellExitW.position_size ≠ 0 := by
  refine ⟨rfl, by decide, by decide, by norm_num [sellExitW]⟩

/-- C1 witness: the amended theorem applied at concrete inputs - the
conservative strategy on Scenario-A data (a BUY whose size is in (0,1])
and update_position on a crossed stop loss. -/
theorem strategy_decision_ranges_amended_witness :
    (0 < (ConservativeTrendStrategy.analyze "BTC" mdScenarioA indScenarioA none).position_size ∧
     (ConservativeTrendStrategy.analyze "BTC" mdScenarioA indScenarioA none).position_size ≤ 1) ∧
    (sellExitW.signal = TradingSignal.SELL ∧ sellExitW.confidence = 1 ∧
     sellExitW.position_size = 1) := by
  constructor
  · exact (strategy_decision_ranges_amended.1 "BTC" mdScenarioA indScenarioA none).2.2.1.mp
      (Or.inl (by
        norm_num [ConservativeTrendStrategy.analyze,
          ConservativeTrendStrategy.analyzeCore, analyzeHandled,
          ConservativeTrendStrategy.is_trend_bullish,
          ConservativeTrendStrategy.get_rsi_signal,
          ConservativeTrendStrategy.is_volatility_acceptable,
          ConservativeTrendStrategy.is_news_positive,
          ConservativeTrendStrategy.combine_signals, indScenarioA, mdScenarioA]))
  · exact strategy_decision_ranges_amended.2.2 [("BTC", posStopW)] "BTC" 90 sellExitW rfl

theorem mod_pre_noVol_buy (ms : String) (mst : ℚ) (bs : String) (bst : ℚ)
    (vc : Bool) (td : String) (no_ : Bool)
    (h : (ModerateMomentumStrategy.combine_momentum_signals_pre ms mst bs bst vc
        false td no_).1 = TradingSignal.BUY ∨
      (ModerateMomentumStrategy.combine_momentum_signals_pre ms mst bs bst vc
        false td no_).1 = TradingSignal.STRONG_BUY) :
    bs = "breakout" ∧ (ms = "bullish" ∨ ms = "bullish_strong") ∧ vc = true := by
  unfold ModerateMomentumStrategy.combine_momentum_signals_pre at h
  dsimp only at h
  split_ifs at h <;> simp_all

theorem mod_combine_buy_of_pre (ms : String) (mst : ℚ) (bs : String) (bst : ℚ)
    (vc vo : Bool) (td : String) (no_ : Bool)
    (h : (ModerateMomentumStrategy.combine_momentum_signals ms mst bs bst vc
        vo td no_).1 = TradingSignal.BUY ∨
      (ModerateMomentumStrategy.combine_momentum_signals ms mst bs bst vc
        vo td no_).1 = TradingSignal.STRONG_BUY) :
    (ModerateMomentumStrategy.combine_momentum_signals_pre ms mst bs bst vc
        vo td no_).1 = TradingSignal.BUY ∨
      (ModerateMomentumStrategy.combine_momentum_signals_pre ms mst bs bst vc
        vo td no_).1 = TradingSignal.STRONG_BUY := by
  unfold ModerateMomentumStrategy.combine_momentum_signals at h
  dsimp only at h
  split_ifs at h <;> simp_all

theorem cons_combine_noVol (tb : Bool) (rs : String) (no_ : Bool) :
    (ConservativeTrendStrategy.combine_signals tb rs false no_).1 =
      TradingSignal.SELL := by
  unfold ConservativeTrendStrategy.combine_signals
  split_ifs <;> simp_all

theorem mod_analyze_signal_eq (s : String) (md : MarketData)
    (ind : TechnicalIndicators) (news : Option NewsAnalysis) :
    (ModerateMomentumStrategy.analyze s md ind news).signal =
      (ModerateMomentumStrategy.combine_momentum_signals
        (ModerateMomentumStrategy.analyze_macd_momentum ind).1
        (ModerateMomentumStrategy.analyze_macd_momentum ind).2
        (ModerateMomentumStrategy.analyze_bollinger_bands ind).1
        (ModerateMomentumStrategy.analyze_bollinger_bands ind).2
        (ModerateMomentumStrategy.check_volume_confirmation ind)
        (ModerateMomentumStrategy.is_volatility_acceptable ind)
        (ModerateMomentumStrategy.get_trend_direction ind)
        (ModerateMomentumStrategy.check_news_sentiment news)).1 := rfl

theorem cons_analyze_signal_eq (s : String) (md : MarketData)
    (ind : TechnicalIndicators) (news : Option NewsAnalysis) :
    (ConservativeTrendStrategy.analyze s md ind news).signal =
      (ConservativeTrendStrategy.combine_signals
        (ConservativeTrendStrategy.is_trend_bullish ind)
        (ConservativeTrendStrategy.get_rsi_signal ind)
        (ConservativeTrendStrategy.is_volatility_acceptable ind)
        (ConservativeTrendStrategy.is_news_positive news)).1 := rfl

/-- C2 (amended): outside the configured volatility band no BUY/STRONG_BUY
is issued by the conservative strategy (its band has only the 3% maximum);
the moderate strategy likewise vetoes BUY/STRONG_BUY outside [0.5, 4] -
except through the Bollinger-breakout branch, which checks only breakout
position, bullish MACD and volume confirmation and bypasses the gate. -/
theorem volatility_veto_amended :
    (∀ (s : String) (md : MarketData) (ind : TechnicalIndicators)
        (news : Option NewsAnalysis),
      ind.atr_percentage > CONSERVATIVE_CONFIG.max_atr_percentage →
      (ConservativeTrendStrategy.analyze s md ind news).signal ≠ TradingSignal.BUY ∧
      (ConservativeTrendStrategy.analyze s md ind news).signal ≠ TradingSignal.STRONG_BUY) ∧
    (∀ (s : String) (md : MarketData) (ind : TechnicalIndicators)
        (news : Option NewsAnalysis),
      ¬(MODERATE_CONFIG.min_atr_percentage ≤ ind.atr_percentage ∧
        ind.atr_percentage ≤ MODERATE_CONFIG.max_atr_percentage) →
      ((ModerateMomentumStrategy.analyze s md ind news).signal = TradingSignal.BUY ∨
       (ModerateMomentumStrategy.analyze s md ind news).signal = TradingSignal.STRONG_BUY) →
      (ModerateMomentumStrategy.analyze_bollinger_bands ind).1 = "breakout" ∧
      ((ModerateMomentumStrategy.analyze_macd_momentum ind).1 = "bullish" ∨
       (ModerateMomentumStrategy.analyze_macd_momentum ind).1 = "bullish_strong") ∧
      ModerateMomentumStrategy.check_volume_confirmation ind = true) := by
  constructor
  · intro s md ind news h
    have hvol : ConservativeTrendStrategy.is_volatility_acceptable ind = false :=
      decide_eq_false (not_le.mpr h)
    rw [cons_analyze_signal_eq, hvol, cons_combine_noVol]
    exact ⟨by decide, by decide⟩
  · intro s md ind news hband hbuy
    have hvol : ModerateMomentumStrategy.is_volatility_acceptable ind = false :=
      decide_eq_false hband
    rw [mod_analyze_signal_eq, hvol] at hbuy
    exact mod_pre_noVol_buy _ _ _ _ _ _ _
      (mod_combine_buy_of_pre _ _ _ _ _ _ _ _ hbuy)

/-- C2 counterexample to the claim as stated: with atr_percentage 6, far
outside the moderate band [0.5, 4], otherwise-bullish breakout indicators
still make the moderate strategy's analyze return BUY. -/
theorem moderate_breakout_bypasses_volatility_veto :
    indVetoBypass.atr_percentage = 6 ∧
    ¬(MODERATE_CONFIG.min_atr_percentage ≤ indVetoBypass.atr_percentage ∧
      indVetoBypass.atr_percentage ≤ MODERATE_CONFIG.max_atr_percentage) ∧
    (ModerateMomentumStrategy.analyze "BTC" mdScenarioA indVetoBypass none).signal =
      TradingSignal.BUY := by
  refine ⟨rfl, by norm_num [indVetoBypass, MODERATE_CONFIG], ?_⟩
  norm_num [ModerateMomentumStrategy.analyze, ModerateMomentumStrategy.analyzeCore,
    analyzeHandled, ModerateMomentumStrategy.analyze_macd_momentum,
    ModerateMomentumStrategy.analyze_bollinger_bands,
    ModerateMomentumStrategy.check_volume_confirmation,
    ModerateMomentumStrategy.is_volatility_acceptable,
    ModerateMomentumStrategy.get_trend_direction,
    TechnicalAnalysisHelpers.is_bullish_trend,
    TechnicalAnalysisHelpers.is_bearish_trend,
    ModerateMomentumStrategy.check_news_sentiment,
    ModerateMomentumStrategy.combine_momentum_signals,
    ModerateMomentumStrategy.combine_momentum_signals_pre,
    MODERATE_CONFIG, indVetoBypass, mdScenarioA]

/-- C2 witness: the amended theorem applied at the concrete out-of-band
input indVetoBypass, for both strategies. -/
theorem volatility_veto_amended_witness :
    ((ConservativeTrendStrategy.analyze "BTC" mdScenarioA indVetoBypass none).signal ≠
      TradingSignal.BUY) ∧
    ((ModerateMomentumStrategy.analyze_bollinger_bands indVetoBypass).1 = "breakout" ∧
     ((ModerateMomentumStrategy.analyze_macd_momentum indVetoBypass).1 = "bullish" ∨
      (ModerateMomentumStrategy.analyze_macd_momentum indVetoBypass).1 = "bullish_strong") ∧
     ModerateMomentumStrategy.check_volume_confirmation indVetoBypass = true) := by
  constructor
  · exact (volatility_veto_amended.1 "BTC" mdScenarioA indVetoBypass none
      (by norm_num [indVetoBypass, CONSERVATIVE_CONFIG])).1
  · exact volatility_veto_amended.2 "BTC" mdScenarioA indVetoBypass none
      (by norm_num [indVetoBypass, MODERATE_CONFIG])
      (Or.inl (by
        norm_num [ModerateMomentumStrategy.analyze, ModerateMomentumStrategy.analyzeCore,
          analyzeHandled, ModerateMomentumStrategy.analyze_macd_momentum,
          ModerateMomentumStrategy.analyze_bollinger_bands,
          ModerateMomentumStrategy.check_volume_confirmation,
          ModerateMomentumStrategy.is_volatility_acceptable,
          ModerateMomentumStrategy.get_trend_direction,
          TechnicalAnalysisHelpers.is_bullish_trend,
          TechnicalAnalysisHelpers.is_bearish_trend,
          ModerateMomentumStrategy.check_news_sentiment,
          ModerateMomentumStrategy.combine_momentum_signals,
          ModerateMomentumStrategy.combine_momentum_signals_pre,
          MODERATE_CONFIG, indVetoBypass, mdScenarioA]))

/-- C6: analyze of each concrete strategy is total (its body always
produces a decision in the embedding, where every internal operation is
total), and the except-handler of both strategies converts any internal
fault into a decision with signal HOLD, confidence 0.0, position_size 0
and the diagnostic reasoning string "Analysis Error: <fault>". -/
theorem analyze_fault_handling :
    (∀ (s : String) (md : MarketData) (ind : TechnicalIndicators)
        (news : Option NewsAnalysis),
      ∃ d, ConservativeTrendStrategy.analyzeCore s md ind news = Except.ok d ∧
        ConservativeTrendStrategy.analyze s md ind news = d) ∧
    (∀ (s : String) (md : MarketData) (ind : TechnicalIndicators)
        (news : Option NewsAnalysis),
      ∃ d, ModerateMomentumStrategy.analyzeCore s md ind news = Except.ok d ∧
        ModerateMomentumStrategy.analyze s md ind news = d) ∧
    (∀ e : String,
      analyzeHandled ConservativeTrendStrategy.errorDecision (Except.error e) =
        ConservativeTrendStrategy.errorDecision e ∧
      (ConservativeTrendStrategy.errorDecision e).signal = TradingSignal.HOLD ∧
      (ConservativeTrendStrategy.errorDecision e).confidence = 0 ∧
      (ConservativeTrendStrategy.errorDecision e).position_size = 0 ∧
      (ConservativeTrendStrategy.errorDecision e).reasoning = "Analysis Error: " ++ e) ∧
    (∀ e : String,
      analyzeHandled ModerateMomentumStrategy.errorDecision (Except.error e) =
        ModerateMomentumStrategy.errorDecision e ∧
      (ModerateMomentumStrategy.errorDecision e).signal = TradingSignal.HOLD ∧
      (ModerateMomentumStrategy.errorDecision e).confidence = 0 ∧
      (ModerateMomentumStrategy.errorDecision e).position_size = 0 ∧
      (ModerateMomentumStrategy.errorDecision e).reasoning = "Analysis Error: " ++ e) :=
  ⟨fun _ _ _ _ => ⟨_, rfl, rfl⟩, fun _ _ _ _ => ⟨_, rfl, rfl⟩,
   fun _ => ⟨rfl, rfl, rfl, rfl, rfl⟩, fun _ => ⟨rfl, rfl, rfl, rfl, rfl⟩⟩

/-- C9 counterexample to the claim as stated: create on the auto-discovered
registry key "conservative_trend" returns an instance, but its
get_parameters() reports the strategy's configured display name
"Conservative Trend Following", not the registered name. -/
theorem registry_name_mismatch_counterexample :
    StrategyRegistry.create StrategyRegistry.autoRegistry "unknown" = none ∧
    StrategyRegistry.create StrategyRegistry.autoRegistry "conservative_trend" =
      some StrategyClass.conservative ∧
    StrategyClass.conservative.get_parameters_name ≠ "conservative_trend" :=
  ⟨rfl, rfl, by decide⟩

/-- C9 (amended): Registry.create returns None on an unregistered name
without raising and returns the constructed instance for every registered
name; the instance's get_parameters() reports the strategy's own
configured display name, which differs from the registry key. -/
theorem registry_create_amended :
    (∀ name : String, StrategyRegistry.autoRegistry.lookup name = none →
      StrategyRegistry.create StrategyRegistry.autoRegistry name = none) ∧
    (∀ (name : String) (c : StrategyClass),
      StrategyRegistry.autoRegistry.lookup name = some c →
      StrategyRegistry.create StrategyRegistry.autoRegistry name = some c) ∧
    StrategyClass.conservative.get_parameters_name = "Conservative Trend Following" ∧
    StrategyClass.moderate.get_parameters_name = "Moderate Momentum Strategy" := by
  refine ⟨fun name h => ?_, fun name c h => ?_, rfl, rfl⟩
  · unfold StrategyRegistry.create
    rw [h]
  · unfold StrategyRegistry.create
    rw [h]

/-- C9 witness: the amended theorem applied to the unregistered name
"unknown" and the registered name "moderate_momentum". -/
theorem registry_create_amended_witness :
    StrategyRegistry.create StrategyRegistry.autoRegistry "unknown" = none ∧
    StrategyRegistry.create StrategyRegistry.autoRegistry "moderate_momentum" =
      some StrategyClass.moderate := by
  exact ⟨registry_create_amended.1 "unknown" rfl,
    registry_create_amended.2.1 "moderate_momentum" StrategyClass.moderate rfl⟩

theorem calculate_results_formulas (t : BacktestTrade) (x : ℚ) (e : ℤ)
    (hx : t.exit_price = some x) (hx0 : x ≠ 0) (he : t.exit_time = some e)
    (hp : t.entry_price ≠ 0) (hq : t.quantity ≠ 0) :
    t.calculate_results.pnl = (x - t.entry_price) * t.quantity ∧
    t.calculate_results.pnl_percentage =
      t.calculate_results.pnl / (t.entry_price * t.quantity) * 100 := by
  unfold BacktestTrade.calculate_results
  have hc : truthyQ t.exit_price = true ∧ t.exit_time ≠ none := by
    constructor
    · rw [hx]; simp [truthyQ, hx0]
    · rw [he]; simp
  rw [if_pos hc]
  simp only [hx, he, Option.getD_some]
  constructor
  · trivial
  · show (x - t.entry_price) / t.entry_price * 100 =
      (x - t.entry_price) * t.quantity / (t.entry_price * t.quantity) * 100
    field_simp
    ring

theorem close_position_record (st : PortfolioSimulator) (id : String)
    (pos : SimulationPosition) (price : ℚ) (reason : String) (now : ℤ)
    (h : st.positions.lookup id = some pos) :
    (st.close_position id price reason now).trade_history =
      st.trade_history ++
        [{ timestamp := now
           symbol := pos.symbol
           strategy := pos.strategy_name
           action := "SELL"
           price := price
           quantity := pos.quantity
           value := pos.quantity * price
           pnl := some ((price - pos.entry_price) * pos.quantity)
           reason := reason
           reasoning := ""
           hold_duration := (now - pos.entry_time) / 86400 }] := by
  unfold PortfolioSimulator.close_position
  rw [h]
  simp [SimulationPosition.calculate_pnl]

def tradeZeroExitW : BacktestTrade :=
  { strategy_name := "Conservative Trend Following", symbol := "BTC",
    entry_time := 0, exit_time := none, entry_price := 100, exit_price := none,
    quantity := 1, signal := TradingSignal.BUY, confidence := 7/10,
    reasoning := "", stop_loss := some 95, take_profit := some 112 }

def btStateZeroW : SimpleBacktester :=
  { initial_capital := 10000, current_capital := 9900,
    active_trades := [("BTC", tradeZeroExitW)], completed_trades := [],
    equity_history := [] }

/-- C7 counterexample to the claim as stated: a trade closed at exit price
0.0 (falsy) keeps its default pnl of 0 even though entry price and quantity
are nonzero and the formula gives (0 - 100) * 1 = -100, which is nonzero. -/
theorem closed_trade_zero_exit_counterexample :
    (btStateZeroW.close_trade tradeZeroExitW 0 3600 "Stop Loss").completed_trades =
      [{ tradeZeroExitW with
          exit_price := some 0, exit_time := some 3600, exit_reason := "Stop Loss" }] ∧
    ({ tradeZeroExitW with
        exit_price := some 0, exit_time := some 3600,
        exit_reason := "Stop Loss" } : BacktestTrade).pnl = 0 ∧
    tradeZeroExitW.entry_price ≠ 0 ∧ tradeZeroExitW.quantity ≠ 0 ∧
    (((0 : ℚ) - tradeZeroExitW.entry_price) * tradeZeroExitW.quantity ≠ 0) := by
  refine ⟨rfl, rfl, ?_, ?_, ?_⟩ <;> norm_num [tradeZeroExitW]

def tradeExit110W : BacktestTrade :=
  { tradeZeroExitW with exit_price := some 110, exit_time := some 7200 }

/-- A concrete simulator position used to instantiate the close-record
theorem. -/
def posSimW : SimulationPosition :=
  { symbol := "BTC", strategy_name := "Conservative Trend Following",
    entry_price := 100, quantity := 5, entry_time := 0,
    stop_loss := some 96, take_profit := some 112 }

/-- A simulator state holding posSimW. -/
def simStateW : PortfolioSimulator :=
  { initial_balance := 10000, current_balance := 10000, cash := 9500,
    max_positions := 10, positions := [("p1", posSimW)], trade_history := [],
    balance_history := [], peak_balance := 10000, max_drawdown := 0 }

/-- The SELL record appended when posSimW is closed at price 110. -/
def closeRecW : SimTradeRecord :=
  { timestamp := 0, symbol := posSimW.symbol, strategy := posSimW.strategy_name,
    action := "SELL", price := 110, quantity := posSimW.quantity,
    value := posSimW.quantity * 110,
    pnl := some ((110 - posSimW.entry_price) * posSimW.quantity),
    reason := "Take-Profit", reasoning := "",
    hold_duration := (0 - posSimW.entry_time) / 86400 }

/-- C7 (amended): for every closed trade whose entry price, quantity and
exit price are nonzero (a 0.0 exit price is falsy and skips result
computation), calculate_results sets pnl = (exit - entry) * quantity and
pnl_percentage = pnl / (entry * quantity) * 100; the simulator's close
appends a record whose pnl is exactly (price - entry) * quantity, and
SimulationPosition.calculate_pnl is exactly that arithmetic. -/
theorem closed_trade_pnl_amended :
    (∀ (t : BacktestTrade) (x : ℚ) (e : ℤ),
      t.exit_price = some x → x ≠ 0 → t.exit_time = some e →
      t.entry_price ≠ 0 → t.quantity ≠ 0 →
      t.calculate_results.pnl = (x - t.entry_price) * t.quantity ∧
      t.calculate_results.pnl_percentage =
        t.calculate_results.pnl / (t.entry_price * t.quantity) * 100) ∧
    (∀ (st : PortfolioSimulator) (id : String) (pos : SimulationPosition)
        (price : ℚ) (reason : String) (now : ℤ),
      st.positions.lookup id = some pos →
      (st.close_position id price reason now).trade_history =
        st.trade_history ++
          [{ timestamp := now
             symbol := pos.symbol
             strategy := pos.strategy_name
             action := "SELL"
             price := price
             quantity := pos.quantity
             value := pos.quantity * price
             pnl := some ((price - pos.entry_price) * pos.quantity)
             reason := reason
             reasoning := ""
             hold_duration := (now - pos.entry_time) / 86400 }]) ∧
    (∀ (p : SimulationPosition) (price : ℚ),
      p.calculate_pnl price = (price - p.entry_price) * p.quantity) :=
  ⟨calculate_results_formulas, close_position_record, fun _ _ => rfl⟩

/-- C7 witness: the amended theorem applied to a concrete trade closed at
110 and to the concrete simulator state simStateW. -/
theorem closed_trade_pnl_amended_witness :
    (tradeExit110W.calculate_results.pnl = ((110 : ℚ) - 100) * 1 ∧
     tradeExit110W.calculate_results.pnl_percentage =
       tradeExit110W.calculate_results.pnl / (100 * 1) * 100) ∧
    (simStateW.close_position "p1" 110 "Take-Profit" 0).trade_history =
      simStateW.trade_history ++ [closeRecW] := by
  constructor
  · have h := closed_trade_pnl_amended.1 tradeExit110W 110 7200 rfl (by norm_num)
      rfl (by norm_num [tradeExit110W, tradeZeroExitW])
      (by norm_num [tradeExit110W, tradeZeroExitW])
    exact ⟨h.1, h.2⟩
  · exact closed_trade_pnl_amended.2.1 simStateW "p1" posSimW 110 "Take-Profit" 0 rfl

theorem close_position_positions (st : PortfolioSimulator) (id : String)
    (price : ℚ) (reason : String) (now : ℤ) :
    (st.close_position id price reason now).positions = st.positions := by
  unfold PortfolioSimulator.close_position
  cases h : st.positions.lookup id <;> rfl

theorem foldl_close_positions_fn (l : List (String × SimulationPosition))
    (st : PortfolioSimulator) (pr : String × SimulationPosition → ℚ)
    (rs : String × SimulationPosition → String)
    (nw : String × SimulationPosition → ℤ) :
    (l.foldl (fun acc kv => acc.close_position kv.1 (pr kv) (rs kv) (nw kv))
      st).positions = st.positions := by
  induction l generalizing st with
  | nil => rfl
  | cons a t ih =>
    simp only [List.foldl_cons]
    rw [ih, close_position_positions]

theorem open_long_cash_reject (st : PortfolioSimulator) (sym sn : String)
    (d : TradingDecision) (price : ℚ) (now : ℤ)
    (h : st.cash < st.current_balance * d.position_size) :
    st.open_long_position sym sn d price now = st := by
  unfold PortfolioSimulator.open_long_position
  dsimp only
  split_ifs <;> rfl

theorem open_long_existing_reject (st : PortfolioSimulator) (sym sn : String)
    (d : TradingDecision) (price : ℚ) (now : ℤ)
    (h : (st.get_position sym sn).isSome) :
    st.open_long_position sym sn d price now = st := by
  unfold PortfolioSimulator.open_long_position
  rw [if_pos h]

theorem open_long_cap_reject (st : PortfolioSimulator) (sym sn : String)
    (d : TradingDecision) (price : ℚ) (now : ℤ)
    (h : st.max_positions ≤ st.positions.length) :
    st.open_long_position sym sn d price now = st := by
  unfold PortfolioSimulator.open_long_position
  dsimp only
  split_ifs <;> rfl

theorem open_long_success (st : PortfolioSimulator) (sym sn : String)
    (d : TradingDecision) (price : ℚ) (now : ℤ)
    (h1 : st.get_position sym sn = none)
    (h2 : st.positions.length < st.max_positions)
    (h3 : st.current_balance * d.position_size ≤ st.cash) :
    (st.open_long_position sym sn d price now).cash =
      st.cash - st.current_balance * d.position_size ∧
    (st.open_long_position sym sn d price now).positions =
      dictInsert st.positions (sym ++ "_" ++ sn ++ "_" ++ toString now)
        { symbol := sym, strategy_name := sn, entry_price := price,
          quantity := st.current_balance * d.position_size / price,
          entry_time := now, stop_loss := d.stop_loss,
          take_profit := d.take_profit } := by
  unfold PortfolioSimulator.open_long_position
  dsimp only
  rw [if_neg (by simp [h1]), if_neg (not_le.mpr h2), if_neg (not_lt.mpr h3)]
  exact ⟨rfl, rfl⟩

theorem process_decision_nonbuy_no_open (st : PortfolioSimulator)
    (sym sn : String) (d : TradingDecision) (price : ℚ) (now : ℤ)
    (h : d.signal ≠ TradingSignal.BUY ∧ d.signal ≠ TradingSignal.STRONG_BUY) :
    ∀ kv ∈ (st.process_trading_decision sym sn d price now).positions,
      kv ∈ st.positions := by
  unfold PortfolioSimulator.process_trading_decision
  rw [if_neg h.1]
  split_ifs with hsell hsb
  · unfold PortfolioSimulator.close_positions_for_symbol
    intro kv hkv
    simp only at hkv
    rw [List.mem_filter] at hkv
    have hpos := foldl_close_positions_fn
      (st.positions.filter (fun kv => decide (kv.2.symbol = sym))) st
      (fun _ => price) (fun _ => "Strategy Signal") (fun _ => now)
    rw [hpos] at hkv
    exact hkv.1
  · exact absurd hsb h.2
  · exact fun kv hkv => hkv

def decBadConf : TradingDecision :=
  { signal := TradingSignal.BUY, confidence := 0, reasoning := "",
    stop_loss := none, take_profit := none, position_size := 1/20 }

def decBigSize : TradingDecision :=
  { signal := TradingSignal.BUY, confidence := 1, reasoning := "",
    stop_loss := none, take_profit := none, position_size := 2 }

def decHoldW : TradingDecision :=
  { signal := TradingSignal.HOLD, confidence := 1, reasoning := "",
    stop_loss := none, take_profit := none, position_size := 0 }

def stratStateW : BaseStrategyState :=
  { name := "S", is_enabled := true, positions := [], max_positions := 5,
    min_confidence := 6/10 }

/-- C3 (amended): the simulator opens a long position for (symbol,
strategy) exactly when the dispatched signal is BUY or STRONG_BUY, no
position for that pair is open, the open-position count is below the cap,
and the position value (current_balance * position_size) does not exceed
cash - an open is rejected whenever cash < position value - and on a
successful open cash decreases by exactly the position value.  The
strategy's validate_signal is never consulted by the simulator. -/
theorem simulator_open_conditions_amended :
    (∀ (st : PortfolioSimulator) (sym sn : String) (d : TradingDecision)
        (price : ℚ) (now : ℤ),
      st.get_position sym sn = none →
      st.positions.length < st.max_positions →
      st.current_balance * d.position_size ≤ st.cash →
      (st.open_long_position sym sn d price now).cash =
        st.cash - st.current_balance * d.position_size ∧
      (st.open_long_position sym sn d price now).positions =
        dictInsert st.positions (sym ++ "_" ++ sn ++ "_" ++ toString now)
          { symbol := sym, strategy_name := sn, entry_price := price,
            quantity := st.current_balance * d.position_size / price,
            entry_time := now, stop_loss := d.stop_loss,
            take_profit := d.take_profit }) ∧
    (∀ (st : PortfolioSimulator) (sym sn : String) (d : TradingDecision)
        (price : ℚ) (now : ℤ),
      st.cash < st.current_balance * d.position_size →
      st.open_long_position sym sn d price now = st) ∧
    (∀ (st : PortfolioSimulator) (sym sn : String) (d : TradingDecision)
        (price : ℚ) (now : ℤ),
      (st.get_position sym sn).isSome →
      st.open_long_position sym sn d price now = st) ∧
    (∀ (st : PortfolioSimulator) (sym sn : String) (d : TradingDecision)
        (price : ℚ) (now : ℤ),
      st.max_positions ≤ st.positions.length →
      st.open_long_position sym sn d price now = st) ∧
    (∀ (st : PortfolioSimulator) (sym sn : String) (d : TradingDecision)
        (price : ℚ) (now : ℤ),
      d.signal ≠ TradingSignal.BUY ∧ d.signal ≠ TradingSignal.STRONG_BUY →
      ∀ kv ∈ (st.process_trading_decision sym sn d price now).positions,
        kv ∈ st.positions) :=
  ⟨open_long_success, open_long_cash_reject, open_long_existing_reject,
   open_long_cap_reject, process_decision_nonbuy_no_open⟩

/-- C3 counterexample to the claim as stated: a BUY decision with
confidence 0 fails validate_signal (minimum confidence 0.6), yet one full
process_market_data tick on a fresh simulator still opens the position. -/
theorem simulator_ignores_validate_signal_counterexample :
    BaseStrategy.validate_signal stratStateW decBadConf "BTC" = false ∧
    (PortfolioSimulator.process_market_data [("S", fun _ _ _ _ => decBadConf)]
      (PortfolioSimulator.mkInit 10000 10) "BTC" mdScenarioA indScenarioA
      none 0).positions.length = 1 := by
  constructor
  · norm_num [BaseStrategy.validate_signal, stratStateW, decBadConf]
  · norm_num [PortfolioSimulator.process_market_data,
      PortfolioSimulator.update_positions,
      PortfolioSimulator.process_trading_decision,
      PortfolioSimulator.open_long_position, PortfolioSimulator.get_position,
      dictInsert, PortfolioSimulator.update_portfolio_value,
      PortfolioSimulator.positionsValue, PortfolioSimulator.apply_risk_management,
      PortfolioSimulator.close_positions_for_symbol,
      PortfolioSimulator.close_position, SimulationPosition.stopHit,
      SimulationPosition.tpHit, SimulationPosition.current_value, truthyQ,
      PortfolioSimulator.mkInit, decBadConf, mdScenarioA, indScenarioA]

/-- C3 witness: the amended theorem applied at concrete states - a
successful open (cash decreases by the position value), a cash rejection,
an existing-position rejection, a cap rejection and a HOLD dispatch. -/
theorem simulator_open_conditions_amended_witness :
    (((PortfolioSimulator.mkInit 10000 10).open_long_position "BTC" "S"
        decBadConf 100 0).cash =
      10000 - 10000 * decBadConf.position_size) ∧
    ((PortfolioSimulator.mkInit 100 10).open_long_position "BTC" "S"
      decBigSize 100 0 = PortfolioSimulator.mkInit 100 10) ∧
    (simStateW.open_long_position "BTC" "Conservative Trend Following"
      decBigSize 100 0 = simStateW) ∧
    ((PortfolioSimulator.mkInit 10000 0).open_long_position "BTC" "S"
      decBadConf 100 0 = PortfolioSimulator.mkInit 10000 0) ∧
    (∀ kv ∈ (simStateW.process_trading_decision "ETH" "S" decHoldW 100
        0).positions, kv ∈ simStateW.positions) := by
  refine ⟨?_, ?_, ?_, ?_, ?_⟩
  · exact (simulator_open_conditions_amended.1 (PortfolioSimulator.mkInit 10000 10)
      "BTC" "S" decBadConf 100 0 rfl (by norm_num [PortfolioSimulator.mkInit])
      (by norm_num [PortfolioSimulator.mkInit, decBadConf])).1
  · exact simulator_open_conditions_amended.2.1 (PortfolioSimulator.mkInit 100 10)
      "BTC" "S" decBigSize 100 0 (by norm_num [PortfolioSimulator.mkInit, decBigSize])
  · exact simulator_open_conditions_amended.2.2.1 simStateW
      "BTC" "Conservative Trend Following" decBigSize 100 0 (by decide)
  · exact simulator_open_conditions_amended.2.2.2.1 (PortfolioSimulator.mkInit 10000 0)
      "BTC" "S" decBadConf 100 0 (by norm_num [PortfolioSimulator.mkInit])
  · exact simulator_open_conditions_amended.2.2.2.2 simStateW "ETH" "S" decHoldW
      100 0 ⟨by decide, by decide⟩

theorem lookup_self_of_nodup_keys {β : Type} (l : List (String × β))
    (h : (l.map Prod.fst).Nodup) :
    ∀ kv ∈ l, l.lookup kv.1 = some kv.2 := by
  induction l with
  | nil => intro kv hkv; simp at hkv
  | cons a t ih =>
    obtain ⟨k0, v0⟩ := a
    simp only [List.map_cons, List.nodup_cons] at h
    intro kv hkv
    rcases List.mem_cons.mp hkv with hkv | hkv
    · subst hkv
      simp [List.lookup]
    · have hne : kv.1 ≠ k0 := by
        intro he
        exact h.1 (he ▸ List.mem_map_of_mem Prod.fst hkv)
      simp only [List.lookup]
      rw [show (kv.1 == k0) = false from beq_eq_false_iff_ne.mpr hne]
      exact ih h.2 kv hkv

theorem lookup_isSome_of_mem_keys {β : Type} (l : List (String × β))
    (k : String) (h : k ∈ l.map Prod.fst) : (l.lookup k).isSome := by
  induction l with
  | nil => simp at h
  | cons a t ih =>
    obtain ⟨k0, v0⟩ := a
    simp only [List.map_cons, List.mem_cons] at h
    simp only [List.lookup]
    cases hbeq : (k == k0) with
    | true => simp
    | false =>
      exact ih (h.resolve_left fun he => by simp [he] at hbeq)

theorem dictInsert_keys_nodup {β : Type} (l : List (String × β)) (k : String)
    (v : β) (h : (l.map Prod.fst).Nodup) :
    ((dictInsert l k v).map Prod.fst).Nodup := by
  unfold dictInsert
  split_ifs with hs
  · have heq : (l.map (fun kv => if kv.1 = k then (k, v) else kv)).map Prod.fst =
        l.map Prod.fst := by
      rw [List.map_map]
      apply List.map_congr_left
      intro a _
      by_cases hak : a.1 = k
      · simp [Function.comp, hak]
      · simp [Function.comp, hak]
    rw [heq]
    exact h
  · have hk : k ∉ l.map Prod.fst := fun hmem =>
      hs (lookup_isSome_of_mem_keys l k hmem)
    rw [List.map_append]
    simp only [List.map_cons, List.map_nil]
    refine List.Nodup.append h (List.nodup_singleton k) ?_
    intro a ha hb
    simp only [List.mem_singleton] at hb
    exact hk (hb ▸ ha)

theorem close_position_positions2 (st : PortfolioSimulator) (id : String)
    (price : ℚ) (reason : String) (now : ℤ) :
    (st.close_position id price reason now).positions = st.positions := by
  unfold PortfolioSimulator.close_position
  cases h : st.positions.lookup id <;> rfl

theorem close_position_balance (st : PortfolioSimulator) (id : String)
    (price : ℚ) (reason : String) (now : ℤ) :
    (st.close_position id price reason now).current_balance =
      st.current_balance := by
  unfold PortfolioSimulator.close_position
  cases h : st.positions.lookup id <;> rfl

theorem close_position_cash (st : PortfolioSimulator) (id : String)
    (pos : SimulationPosition) (price : ℚ) (reason : String) (now : ℤ)
    (h : st.positions.lookup id = some pos) :
    (st.close_position id price reason now).cash =
      st.cash + pos.quantity * price := by
  unfold PortfolioSimulator.close_position
  rw [h]

theorem foldl_close_entry_cash (l : List (String × SimulationPosition))
    (st : PortfolioSimulator) (now : ℤ)
    (h : ∀ kv ∈ l, st.positions.lookup kv.1 = some kv.2) :
    (l.foldl (fun acc kv =>
      acc.close_position kv.1 kv.2.entry_price "Risk Management" now) st).cash =
      st.cash + (l.map (fun kv => kv.2.quantity * kv.2.entry_price)).sum := by
  induction l generalizing st with
  | nil => simp
  | cons a t ih =>
    simp only [List.foldl_cons, List.map_cons, List.sum_cons]
    have ha := h a (List.mem_cons_self a t)
    have hstep := close_position_cash st a.1 a.2 a.2.entry_price
      "Risk Management" now ha
    have ht : ∀ kv ∈ t,
        (st.close_position a.1 a.2.entry_price "Risk Management" now).positions.lookup
          kv.1 = some kv.2 := by
      intro kv hkv
      rw [close_position_positions2]
      exact h kv (List.mem_cons_of_mem a hkv)
    rw [ih _ ht, hstep]
    ring

theorem foldl_close_entry_balance (l : List (String × SimulationPosition))
    (st : PortfolioSimulator) (now : ℤ) :
    (l.foldl (fun acc kv =>
      acc.close_position kv.1 kv.2.entry_price "Risk Management" now)
        st).current_balance = st.current_balance := by
  induction l generalizing st with
  | nil => rfl
  | cons a t ih =>
    simp only [List.foldl_cons]
    rw [ih, close_position_balance]

theorem risk_management_balance (st : PortfolioSimulator) (now : ℤ)
    (h : (st.positions.map Prod.fst).Nodup)
    (hbal : st.current_balance = st.cash + st.positionsValue) :
    (st.apply_risk_management now).current_balance =
      (st.apply_risk_management now).cash +
        (st.apply_risk_management now).positionsValue := by
  unfold PortfolioSimulator.apply_risk_management
  split_ifs with hd
  · dsimp only
    rw [foldl_close_entry_balance]
    show st.current_balance =
      (st.positions.foldl (fun acc kv =>
        acc.close_position kv.1 kv.2.entry_price "Risk Management" now) st).cash +
        ((List.nil.map (fun kv : String × SimulationPosition =>
          kv.2.current_value)).sum)
    rw [foldl_close_entry_cash st.positions st now
      (lookup_self_of_nodup_keys st.positions h), hbal]
    simp only [List.map_nil, List.sum_nil, add_zero]
    rfl
  · exact hbal

theorem open_long_keys_nodup (st : PortfolioSimulator) (sym sn : String)
    (d : TradingDecision) (price : ℚ) (now : ℤ)
    (h : (st.positions.map Prod.fst).Nodup) :
    (((st.open_long_position sym sn d price now).positions).map Prod.fst).Nodup := by
  unfold PortfolioSimulator.open_long_position
  dsimp only
  split_ifs
  · exact h
  · exact h
  · exact h
  · exact dictInsert_keys_nodup _ _ _ h

theorem filter_keys_nodup {β : Type} (l : List (String × β))
    (p : String × β → Bool)
    (h : (l.map Prod.fst).Nodup) : ((l.filter p).map Prod.fst).Nodup :=
  List.Nodup.sublist (List.Sublist.map Prod.fst (List.filter_sublist l)) h

theorem process_decision_keys_nodup (st : PortfolioSimulator) (sym sn : String)
    (d : TradingDecision) (price : ℚ) (now : ℤ)
    (h : (st.positions.map Prod.fst).Nodup) :
    (((st.process_trading_decision sym sn d price now).positions).map Prod.fst).Nodup := by
  unfold PortfolioSimulator.process_trading_decision
  split_ifs with h1 h2 h3
  · exact open_long_keys_nodup st sym sn d price now h
  · unfold PortfolioSimulator.close_positions_for_symbol
    dsimp only
    apply filter_keys_nodup
    rw [foldl_close_positions_fn _ _ (fun _ => price) (fun _ => "Strategy Signal")
      (fun _ => now)]
    exact h
  · exact open_long_keys_nodup st sym sn _ price now h
  · exact h

theorem update_positions_keys_nodup (st : PortfolioSimulator) (sym : String)
    (price : ℚ) (now : ℤ) (h : (st.positions.map Prod.fst).Nodup) :
    (((st.update_positions sym price now).positions).map Prod.fst).Nodup := by
  unfold PortfolioSimulator.update_positions
  dsimp only
  apply filter_keys_nodup
  rw [foldl_close_positions_fn _ _ (fun _ => price)
    (fun kv => if kv.2.stopHit price then "Stop-Loss" else "Take-Profit")
    (fun _ => now)]
  exact h

theorem fold_strategies_keys_nodup (strategies : List (String × StrategyFun))
    (st : PortfolioSimulator) (sym : String) (md : MarketData)
    (ind : TechnicalIndicators) (news : Option NewsAnalysis) (price : ℚ)
    (now : ℤ) (h : (st.positions.map Prod.fst).Nodup) :
    (((strategies.foldl (fun acc kv =>
      acc.process_trading_decision sym kv.1 (kv.2 sym md ind news) price now)
        st).positions).map Prod.fst).Nodup := by
  induction strategies generalizing st with
  | nil => exact h
  | cons a t ih =>
    simp only [List.foldl_cons]
    exact ih _ (process_decision_keys_nodup st sym a.1 _ price now h)

/-- C4 helper: after one full tick the recorded balance is cash plus the
book (entry) value of the open positions. -/
theorem tick_balance_book_value (strategies : List (String × StrategyFun))
    (st : PortfolioSimulator) (sym : String) (md : MarketData)
    (ind : TechnicalIndicators) (news : Option NewsAnalysis) (now : ℤ)
    (h : (st.positions.map Prod.fst).Nodup) :
    (PortfolioSimulator.process_market_data strategies st sym md ind news
      now).current_balance =
      (PortfolioSimulator.process_market_data strategies st sym md ind news
        now).cash +
      (PortfolioSimulator.process_market_data strategies st sym md ind news
        now).positionsValue := by
  have h1 := update_positions_keys_nodup st sym md.price now h
  have h2 := fold_strategies_keys_nodup strategies
    (st.update_positions sym md.price now) sym md ind news md.price now h1
  exact risk_management_balance _ now h2 rfl

def consStrategyFun : StrategyFun := fun s md ind news =>
  ConservativeTrendStrategy.analyze s md ind news

def mdTick1 : MarketData :=
  { symbol := "BTC", price := 100, volume := 0, timestamp := 1,
    high_24h := 0, low_24h := 0, change_24h := 0 }

def mdTick2 : MarketData :=
  { symbol := "BTC", price := 110, volume := 0, timestamp := 2,
    high_24h := 0, low_24h := 0, change_24h := 0 }

def simTick1 : PortfolioSimulator :=
  PortfolioSimulator.process_market_data
    [("Conservative Trend Following", consStrategyFun)]
    (PortfolioSimulator.mkInit 10000 10) "BTC" mdTick1 indScenarioA none 1

def simTick2 : PortfolioSimulator :=
  PortfolioSimulator.process_market_data
    [("Conservative Trend Following", consStrategyFun)]
    simTick1 "BTC" mdTick2 indScenarioA none 2

set_option maxHeartbeats 1000000 in
/-- C4 counterexample to the claim as stated: open a position at entry 100
on tick 1, then tick at price 110; the recorded total balance is 10000
(cash 9500 + book value 500) while cash plus mark-to-market value is 10050. -/
theorem balance_not_marked_to_market_counterexample :
    simTick2.current_balance = 10000 ∧
    simTick2.cash +
      (simTick2.positions.map (fun kv => kv.2.quantity * mdTick2.price)).sum =
      10050 ∧
    (10000 : ℚ) ≠ 10050 := by
  refine ⟨?_, ?_, by norm_num⟩ <;>
    norm_num [simTick2, simTick1, PortfolioSimulator.process_market_data,
      PortfolioSimulator.update_positions,
      PortfolioSimulator.process_trading_decision,
      PortfolioSimulator.open_long_position, PortfolioSimulator.get_position,
      dictInsert, PortfolioSimulator.update_portfolio_value,
      PortfolioSimulator.positionsValue, PortfolioSimulator.apply_risk_management,
      PortfolioSimulator.close_positions_for_symbol,
      PortfolioSimulator.close_position, SimulationPosition.stopHit,
      SimulationPosition.tpHit, SimulationPosition.current_value, truthyQ,
      PortfolioSimulator.mkInit, consStrategyFun, mdTick1, mdTick2, indScenarioA,
      ConservativeTrendStrategy.analyze, ConservativeTrendStrategy.analyzeCore,
      analyzeHandled, ConservativeTrendStrategy.is_trend_bullish,
      ConservativeTrendStrategy.get_rsi_signal,
      ConservativeTrendStrategy.is_volatility_acceptable,
      ConservativeTrendStrategy.is_news_positive,
      ConservativeTrendStrategy.combine_signals,
      ConservativeTrendStrategy.calculate_position_size,
      ConservativeTrendStrategy.calculate_stop_loss,
      ConservativeTrendStrategy.calculate_take_profit, CONSERVATIVE_CONFIG]

/-- C4 (amended): after every process_market_data call the recorded total
balance equals cash plus the book value of the open positions - the sum of
quantity times ENTRY price (SimulationPosition.current_value), not the
mark-to-market value at current prices.  (For a simulator whose positions
dict has well-formed, duplicate-free keys, as every reachable state has.) -/
theorem portfolio_balance_book_value_amended :
    (∀ (strategies : List (String × StrategyFun)) (st : PortfolioSimulator)
        (sym : String) (md : MarketData) (ind : TechnicalIndicators)
        (news : Option NewsAnalysis) (now : ℤ),
      (st.positions.map Prod.fst).Nodup →
      (PortfolioSimulator.process_market_data strategies st sym md ind news
        now).current_balance =
        (PortfolioSimulator.process_market_data strategies st sym md ind news
          now).cash +
        (PortfolioSimulator.process_market_data strategies st sym md ind news
          now).positionsValue) ∧
    (∀ st : PortfolioSimulator,
      st.positionsValue =
        (st.positions.map (fun kv => kv.2.quantity * kv.2.entry_price)).sum) :=
  ⟨tick_balance_book_value, fun _ => rfl⟩

/-- C4 witness: the amended theorem applied at the concrete state simStateW
with a HOLD strategy. -/
theorem portfolio_balance_book_value_amended_witness :
    (PortfolioSimulator.process_market_data [("S", fun _ _ _ _ => decHoldW)]
      simStateW "BTC" mdTick2 indScenarioA none 2).current_balance =
      (PortfolioSimulator.process_market_data [("S", fun _ _ _ _ => decHoldW)]
        simStateW "BTC" mdTick2 indScenarioA none 2).cash +
      (PortfolioSimulator.process_market_data [("S", fun _ _ _ _ => decHoldW)]
        simStateW "BTC" mdTick2 indScenarioA none 2).positionsValue :=
  portfolio_balance_book_value_amended.1 _ simStateW "BTC" mdTick2 indScenarioA
    none 2 (by simp [simStateW])

theorem pairwise_map_replace {β : Type} {R : (String × β) → (String × β) → Prop}
    (l : List (String × β)) (k : String) (v : β)
    (hkeys : (l.map Prod.fst).Nodup) (hl : l.Pairwise R)
    (hnew : ∀ y ∈ l, y.1 ≠ k → R y (k, v) ∧ R (k, v) y) :
    (l.map (fun kv => if kv.1 = k then (k, v) else kv)).Pairwise R := by
  induction l with
  | nil => simp
  | cons a t ih =>
    simp only [List.map_cons, List.nodup_cons] at hkeys
    rcases List.pairwise_cons.mp hl with ⟨ha, ht⟩
    simp only [List.map_cons]
    by_cases hak : a.1 = k
    · rw [if_pos hak]
      have htid : t.map (fun kv => if kv.1 = k then (k, v) else kv) = t := by
        apply List.map_congr_left ?_ |>.trans (List.map_id t)
        intro b hb
        have hbk : b.1 ≠ k := fun he =>
          hkeys.1 (hak ▸ he ▸ List.mem_map_of_mem Prod.fst hb)
        simp [hbk]
      rw [htid]
      refine List.pairwise_cons.mpr ⟨?_, ht⟩
      intro b hb
      have hbk : b.1 ≠ k := fun he =>
        hkeys.1 (hak ▸ he ▸ List.mem_map_of_mem Prod.fst hb)
      exact (hnew b (List.mem_cons_of_mem a hb) hbk).2
    · rw [if_neg hak]
      refine List.pairwise_cons.mpr ⟨?_, ?_⟩
      · intro b' hb'
        rcases List.mem_map.mp hb' with ⟨b, hb, hfb⟩
        by_cases hbk : b.1 = k
        · rw [if_pos hbk] at hfb
          rw [← hfb]
          exact (hnew a (List.mem_cons_self a t) hak).1
        · rw [if_neg hbk] at hfb
          rw [← hfb]
          exact ha b hb
      · exact ih hkeys.2 ht (fun y hy hyk =>
          hnew y (List.mem_cons_of_mem a hy) hyk)

theorem dictInsert_pairwise {β : Type} {R : (String × β) → (String × β) → Prop}
    (l : List (String × β)) (k : String) (v : β)
    (hkeys : (l.map Prod.fst).Nodup) (hl : l.Pairwise R)
    (hnew : ∀ y ∈ l, R y (k, v) ∧ R (k, v) y) :
    (dictInsert l k v).Pairwise R := by
  unfold dictInsert
  split_ifs with hs
  · exact pairwise_map_replace l k v hkeys hl (fun y hy _ => hnew y hy)
  · rw [List.pairwise_append]
    refine ⟨hl, List.pairwise_singleton R (k, v), ?_⟩
    intro a ha b hb
    rw [List.mem_singleton] at hb
    exact hb ▸ (hnew a ha).1

/-- Distinctness of (symbol, strategy) pairs among open simulator
positions. -/
def pairDistinct (a b : String × SimulationPosition) : Prop :=
  ¬(a.2.symbol = b.2.symbol ∧ a.2.strategy_name = b.2.strategy_name)

/-- Well-formedness of a simulator state: duplicate-free position ids and
pairwise-distinct (symbol, strategy) pairs. -/
def PortfolioSimulator.WF (st : PortfolioSimulator) : Prop :=
  (st.positions.map Prod.fst).Nodup ∧ st.positions.Pairwise pairDistinct

theorem open_long_WF (st : PortfolioSimulator) (sym sn : String)
    (d : TradingDecision) (price : ℚ) (now : ℤ) (h : st.WF) :
    (st.open_long_position sym sn d price now).WF := by
  unfold PortfolioSimulator.open_long_position
  dsimp only
  split_ifs with h1 h2 h3
  · exact h
  · exact h
  · exact h
  · refine ⟨dictInsert_keys_nodup _ _ _ h.1, ?_⟩
    apply dictInsert_pairwise _ _ _ h.1 h.2
    intro y hy
    have hfind : st.positions.find? (fun kv =>
        decide (kv.2.symbol = sym ∧ kv.2.strategy_name = sn)) = none := by
      unfold PortfolioSimulator.get_position at h1
      simp only [Bool.not_eq_true, Option.not_isSome,
        Option.isNone_iff_eq_none, Option.map_eq_none] at h1
      exact Option.map_eq_none.mp h1
    have hny := List.find?_eq_none.mp hfind y hy
    simp only [decide_eq_true_eq] at hny
    constructor
    · exact fun hc => hny ⟨hc.1, hc.2⟩
    · exact fun hc => hny ⟨hc.1.symm, hc.2.symm⟩

theorem filter_WF_pairwise (l : List (String × SimulationPosition))
    (p : String × SimulationPosition → Bool) (h : l.Pairwise pairDistinct) :
    (l.filter p).Pairwise pairDistinct :=
  h.sublist (List.filter_sublist l)

theorem process_decision_WF (st : PortfolioSimulator) (sym sn : String)
    (d : TradingDecision) (price : ℚ) (now : ℤ) (h : st.WF) :
    (st.process_trading_decision sym sn d price now).WF := by
  unfold PortfolioSimulator.process_trading_decision
  split_ifs with h1 h2 h3
  · exact open_long_WF st sym sn d price now h
  · unfold PortfolioSimulator.close_positions_for_symbol
    dsimp only
    constructor
    · apply filter_keys_nodup
      rw [foldl_close_positions_fn _ _ (fun _ => price)
        (fun _ => "Strategy Signal") (fun _ => now)]
      exact h.1
    · apply filter_WF_pairwise
      rw [foldl_close_positions_fn _ _ (fun _ => price)
        (fun _ => "Strategy Signal") (fun _ => now)]
      exact h.2
  · exact open_long_WF st sym sn _ price now h
  · exact h

theorem update_positions_WF (st : PortfolioSimulator) (sym : String)
    (price : ℚ) (now : ℤ) (h : st.WF) :
    (st.update_positions sym price now).WF := by
  unfold PortfolioSimulator.update_positions
  dsimp only
  constructor
  · apply filter_keys_nodup
    rw [foldl_close_positions_fn _ _ (fun _ => price)
      (fun kv => if kv.2.stopHit price then "Stop-Loss" else "Take-Profit")
      (fun _ => now)]
    exact h.1
  · apply filter_WF_pairwise
    rw [foldl_close_positions_fn _ _ (fun _ => price)
      (fun kv => if kv.2.stopHit price then "Stop-Loss" else "Take-Profit")
      (fun _ => now)]
    exact h.2

theorem fold_strategies_WF (strategies : List (String × StrategyFun))
    (st : PortfolioSimulator) (sym : String) (md : MarketData)
    (ind : TechnicalIndicators) (news : Option NewsAnalysis) (price : ℚ)
    (now : ℤ) (h : st.WF) :
    ((strategies.foldl (fun acc kv =>
      acc.process_trading_decision sym kv.1 (kv.2 sym md ind news) price now)
        st)).WF := by
  induction strategies generalizing st with
  | nil => exact h
  | cons a t ih =>
    simp only [List.foldl_cons]
    exact ih _ (process_decision_WF st sym a.1 _ price now h)

theorem tick_WF (strategies : List (String × StrategyFun))
    (st : PortfolioSimulator) (sym : String) (md : MarketData)
    (ind : TechnicalIndicators) (news : Option NewsAnalysis) (now : ℤ)
    (h : st.WF) :
    (PortfolioSimulator.process_market_data strategies st sym md ind news
      now).WF := by
  have h2 := fold_strategies_WF strategies
    (st.update_positions sym md.price now) sym md ind news md.price now
    (update_positions_WF st sym md.price now h)
  show (PortfolioSimulator.apply_risk_management _ now).WF
  unfold PortfolioSimulator.apply_risk_management
  split_ifs with hd
  · exact ⟨List.nodup_nil, List.Pairwise.nil⟩
  · exact h2

/-- Simulator states reachable from a fresh simulator by any sequence of
process_market_data ticks with any strategies and inputs. -/
inductive SimReachable : PortfolioSimulator → Prop
  | init (b : ℚ) (m : ℕ) : SimReachable (PortfolioSimulator.mkInit b m)
  | step (strategies : List (String × StrategyFun)) (st : PortfolioSimulator)
      (sym : String) (md : MarketData) (ind : TechnicalIndicators)
      (news : Option NewsAnalysis) (now : ℤ) :
      SimReachable st →
      SimReachable (PortfolioSimulator.process_market_data strategies st sym
        md ind news now)

theorem simReachable_WF (st : PortfolioSimulator) (h : SimReachable st) :
    st.WF := by
  induction h with
  | init b m => exact ⟨List.nodup_nil, List.Pairwise.nil⟩
  | step strategies st sym md ind news now _ ih =>
    exact tick_WF strategies st sym md ind news now ih

theorem mem_dictInsert {β : Type} (l : List (String × β)) (k : String) (v : β)
    (kv : String × β) (h : kv ∈ dictInsert l k v) : kv = (k, v) ∨ kv ∈ l := by
  unfold dictInsert at h
  split_ifs at h with hs
  · rcases List.mem_map.mp h with ⟨b, hb, hfb⟩
    by_cases hbk : b.1 = k
    · rw [if_pos hbk] at hfb
      exact Or.inl hfb.symm
    · rw [if_neg hbk] at hfb
      exact Or.inr (hfb ▸ hb)
  · rcases List.mem_append.mp h with h | h
    · exact Or.inr h
    · exact Or.inl (List.mem_singleton.mp h)

/-- Well-formedness of a backtester state: duplicate-free symbols keys and
every stored trade recorded under its own symbol. -/
def SimpleBacktester.WFbt (st : SimpleBacktester) : Prop :=
  (st.active_trades.map Prod.fst).Nodup ∧
  ∀ kv ∈ st.active_trades, kv.2.symbol = kv.1

theorem close_trade_WFbt (st : SimpleBacktester) (trade : BacktestTrade)
    (exit_price : ℚ) (exit_time : ℤ) (reason : String) (h : st.WFbt) :
    (st.close_trade trade exit_price exit_time reason).WFbt := by
  unfold SimpleBacktester.close_trade
  dsimp only
  constructor
  · exact filter_keys_nodup _ _ h.1
  · intro kv hkv
    exact h.2 kv (List.mem_of_mem_filter hkv)

theorem check_exit_WFbt (strategies : List (String × BtStrategy))
    (st : SimpleBacktester) (symbol : String) (cd : MarketData)
    (ind : TechnicalIndicators) (ts : ℤ) (h : st.WFbt) :
    (SimpleBacktester.check_exit_conditions strategies st symbol cd ind
      ts).WFbt := by
  unfold SimpleBacktester.check_exit_conditions
  cases hm : st.active_trades.lookup symbol
  · exact h
  · dsimp only
    split_ifs
    · exact close_trade_WFbt _ _ _ _ _ h
    · exact close_trade_WFbt _ _ _ _ _ h
    · cases hs : strategies.lookup _
      · exact h
      · dsimp only
        split_ifs
        · exact close_trade_WFbt _ _ _ _ _ h
        · exact h

theorem open_trade_WFbt (st : SimpleBacktester) (strategy : BtStrategy)
    (symbol : String) (md : MarketData) (ind : TechnicalIndicators)
    (d : TradingDecision) (ts : ℤ) (h : st.WFbt) :
    (st.open_trade strategy symbol md ind d ts).WFbt := by
  unfold SimpleBacktester.open_trade
  dsimp only
  constructor
  · exact dictInsert_keys_nodup _ _ _ h.1
  · intro kv hkv
    rcases mem_dictInsert _ _ _ kv hkv with hkv | hkv
    · rw [hkv]
    · exact h.2 kv hkv

theorem check_entry_WFbt (st : SimpleBacktester) (strategy : BtStrategy)
    (symbol : String) (cd : MarketData) (ind : TechnicalIndicators) (ts : ℤ)
    (h : st.WFbt) :
    (st.check_entry_signals strategy symbol cd ind ts).WFbt := by
  unfold SimpleBacktester.check_entry_signals
  dsimp only
  split_ifs
  · exact open_trade_WFbt _ _ _ _ _ _ _ h
  · exact h
  · exact h

theorem entry_step_WFbt (symbol : String) (cd : MarketData)
    (ind : TechnicalIndicators) (ts : ℤ) (st : SimpleBacktester)
    (skv : String × BtStrategy) (h : st.WFbt) :
    (SimpleBacktester.entry_step symbol cd ind ts st skv).WFbt := by
  unfold SimpleBacktester.entry_step
  split_ifs
  · exact check_entry_WFbt _ _ _ _ _ _ h
  · exact h

theorem fold_entry_WFbt (strategies : List (String × BtStrategy))
    (symbol : String) (cd : MarketData) (ind : TechnicalIndicators) (ts : ℤ)
    (st : SimpleBacktester) (h : st.WFbt) :
    (strategies.foldl (SimpleBacktester.entry_step symbol cd ind ts) st).WFbt := by
  induction strategies generalizing st with
  | nil => exact h
  | cons s ss ih =>
    simp only [List.foldl_cons]
    exact ih _ (entry_step_WFbt _ _ _ _ _ _ h)

theorem process_timestamp_WFbt (hashOracle : String → ℤ → ℤ)
    (strategies : List (String × BtStrategy)) (st : SimpleBacktester)
    (ts : ℤ) (hd : HistoricalData) (h : st.WFbt) :
    (SimpleBacktester.process_timestamp hashOracle strategies st ts hd).WFbt := by
  unfold SimpleBacktester.process_timestamp
  induction hd generalizing st with
  | nil => exact h
  | cons a t ih =>
    simp only [List.foldl_cons]
    apply ih
    dsimp only
    cases hf : a.2.find? (fun dp => decide (dp.timestamp = ts)) with
    | none => exact h
    | some cd =>
      exact fold_entry_WFbt strategies a.1 cd _ ts _
        (check_exit_WFbt strategies st a.1 cd _ ts h)

theorem close_all_WFbt (st : SimpleBacktester) (ed : ℤ) (hd : HistoricalData)
    (h : st.WFbt) : (st.close_all_positions ed hd).WFbt := by
  unfold SimpleBacktester.close_all_positions
  generalize st.active_trades = l
  induction l generalizing st with
  | nil => exact h
  | cons a t ih =>
    simp only [List.foldl_cons]
    apply ih
    unfold SimpleBacktester.close_all_step
    dsimp only
    split_ifs
    · exact close_trade_WFbt _ _ _ _ _ h
    · exact h

theorem pairwise_fst_ne_of_nodup_keys {β : Type} (l : List (String × β))
    (h : (l.map Prod.fst).Nodup) : l.Pairwise (fun a b => a.1 ≠ b.1) := by
  induction l with
  | nil => exact List.Pairwise.nil
  | cons a t ih =>
    simp only [List.map_cons, List.nodup_cons] at h
    refine List.pairwise_cons.mpr ⟨?_, ih h.2⟩
    intro b hb he
    exact h.1 (he ▸ List.mem_map_of_mem Prod.fst hb)

theorem WFbt_pairwise_symbols (st : SimpleBacktester) (h : st.WFbt) :
    st.active_trades.Pairwise (fun a b => a.2.symbol ≠ b.2.symbol) := by
  have hne := pairwise_fst_ne_of_nodup_keys _ h.1
  refine hne.imp_of_mem ?_
  intro a b ha hb hab hc
  exact hab (by rw [← h.2 a ha, ← h.2 b hb]; exact hc)

/-- Backtester states reachable from a fresh backtester by any sequence of
processed timestamps, equity-curve records, resets and final close-alls,
with any strategies, hash oracle and historical data. -/
inductive BtReachable : SimpleBacktester → Prop
  | init (c : ℚ) : BtReachable (SimpleBacktester.mkInit c)
  | stepTs (hashOracle : String → ℤ → ℤ)
      (strategies : List (String × BtStrategy)) (st : SimpleBacktester)
      (ts : ℤ) (hd : HistoricalData) : BtReachable st →
      BtReachable (SimpleBacktester.process_timestamp hashOracle strategies
        st ts hd)
  | stepEquity (st : SimpleBacktester) (ts : ℤ) (hd : HistoricalData) :
      BtReachable st →
      BtReachable { st with equity_history := st.equity_history ++ [(ts, st.calculate_portfolio_value ts hd)] }
  | stepReset (st : SimpleBacktester) : BtReachable st →
      BtReachable { st with current_capital := st.initial_capital, active_trades := [], completed_trades := [], equity_history := [] }
  | stepClose (st : SimpleBacktester) (ed : ℤ) (hd : HistoricalData) :
      BtReachable st → BtReachable (st.close_all_positions ed hd)

theorem btReachable_WFbt (st : SimpleBacktester) (h : BtReachable st) :
    st.WFbt := by
  induction h with
  | init c => exact ⟨List.nodup_nil, fun kv hkv => absurd hkv (List.not_mem_nil kv)⟩
  | stepTs hashOracle strategies st ts hd _ ih =>
    exact process_timestamp_WFbt hashOracle strategies st ts hd ih
  | stepEquity st ts hd _ ih => exact ih
  | stepReset st _ _ =>
    exact ⟨List.nodup_nil, fun kv hkv => absurd hkv (List.not_mem_nil kv)⟩
  | stepClose st ed hd _ ih => exact close_all_WFbt st ed hd ih

/-- C5: in every state reachable by any sequence of simulator ticks or
backtester steps, no (symbol, strategy) pair has two simultaneously open
positions: the simulator's open is refused while a position for the pair
exists, and the backtester keys trades by symbol. -/
theorem no_duplicate_open_positions :
    (∀ st : PortfolioSimulator, SimReachable st →
      st.positions.Pairwise pairDistinct) ∧
    (∀ st : SimpleBacktester, BtReachable st →
      st.active_trades.Pairwise (fun a b =>
        ¬(a.2.symbol = b.2.symbol ∧ a.2.strategy_name = b.2.strategy_name))) := by
  constructor
  · exact fun st h => (simReachable_WF st h).2
  · intro st h
    have hp := WFbt_pairwise_symbols st (btReachable_WFbt st h)
    exact hp.imp (fun hab hc => hab hc.1)

/-- C5 witness: the invariant read off at concrete reachable states - the
simulator after one real tick and the backtester after one processed
timestamp. -/
theorem no_duplicate_open_positions_witness :
    simTick1.positions.Pairwise pairDistinct ∧
    (SimpleBacktester.process_timestamp (fun _ _ => 0) [] (SimpleBacktester.mkInit 10000)
      10 []).active_trades.Pairwise (fun a b =>
        ¬(a.2.symbol = b.2.symbol ∧ a.2.strategy_name = b.2.strategy_name)) := by
  constructor
  · exact no_duplicate_open_positions.1 simTick1
      (SimReachable.step _ _ _ _ _ _ _ (SimReachable.init 10000 10))
  · exact no_duplicate_open_positions.2 _
      (BtReachable.stepTs _ _ _ _ _ (BtReachable.init 10000))

def btStratW : BtStrategy :=
  { name := "S", analyze := fun _ _ _ _ => decHoldW,
    validate_signal := fun _ _ => true }

/-- C10: in every reachable backtester state at most one trade is open per
symbol across all strategies; while a trade is open on a symbol, the
per-strategy entry pass leaves the state untouched (no other strategy's
entry signal is evaluated or accepted for that symbol). -/
theorem backtester_symbol_exclusivity :
    (∀ st : SimpleBacktester, BtReachable st →
      st.active_trades.Pairwise (fun a b => a.2.symbol ≠ b.2.symbol)) ∧
    (∀ (symbol : String) (cd : MarketData) (ind : TechnicalIndicators)
        (ts : ℤ) (st : SimpleBacktester) (skv : String × BtStrategy),
      (st.active_trades.lookup symbol).isSome →
      SimpleBacktester.entry_step symbol cd ind ts st skv = st) ∧
    (∀ (symbol : String) (cd : MarketData) (ind : TechnicalIndicators)
        (ts : ℤ) (strategies : List (String × BtStrategy))
        (st : SimpleBacktester),
      (st.active_trades.lookup symbol).isSome →
      strategies.foldl (SimpleBacktester.entry_step symbol cd ind ts) st = st) := by
  refine ⟨fun st h => WFbt_pairwise_symbols st (btReachable_WFbt st h),
    fun symbol cd ind ts st skv h => ?_, fun symbol cd ind ts strategies => ?_⟩
  · have hni : (st.active_trades.lookup symbol).isNone = false := by
      cases hl : st.active_trades.lookup symbol
      · rw [hl] at h; exact absurd h (by simp)
      · simp
    unfold SimpleBacktester.entry_step
    rw [if_neg (by simp [hni])]
  · induction strategies with
    | nil => intro st h; rfl
    | cons s ss ih =>
      intro st h
      simp only [List.foldl_cons]
      have hni : (st.active_trades.lookup symbol).isNone = false := by
        cases hl : st.active_trades.lookup symbol
        · rw [hl] at h; exact absurd h (by simp)
        · simp
      have hstep : SimpleBacktester.entry_step symbol cd ind ts st s = st := by
        unfold SimpleBacktester.entry_step
        rw [if_neg (by simp [hni])]
      rw [hstep]
      exact ih st h

/-- C10 witness: the theorem applied at a fresh backtester and at a
concrete state holding an open BTC trade, where the entry pass is a
no-op. -/
theorem backtester_symbol_exclusivity_witness :
    (SimpleBacktester.mkInit 10000).active_trades.Pairwise
      (fun a b => a.2.symbol ≠ b.2.symbol) ∧
    SimpleBacktester.entry_step "BTC" mdTick2 indScenarioA 2 btStateZeroW
      ("S", btStratW) = btStateZeroW ∧
    [("S", btStratW)].foldl (SimpleBacktester.entry_step "BTC" mdTick2
      indScenarioA 2) btStateZeroW = btStateZeroW := by
  refine ⟨?_, ?_, ?_⟩
  · exact backtester_symbol_exclusivity.1 _ (BtReachable.init 10000)
  · exact backtester_symbol_exclusivity.2.1 "BTC" mdTick2 indScenarioA 2
      btStateZeroW ("S", btStratW) (by decide)
  · exact backtester_symbol_exclusivity.2.2 "BTC" mdTick2 indScenarioA 2
      [("S", btStratW)] btStateZeroW (by decide)

theorem calc_results_fields (t : BacktestTrade) :
    t.calculate_results.symbol = t.symbol ∧
    t.calculate_results.exit_price = t.exit_price ∧
    t.calculate_results.exit_time = t.exit_time ∧
    t.calculate_results.exit_reason = t.exit_reason := by
  unfold BacktestTrade.calculate_results
  split_ifs <;> exact ⟨rfl, rfl, rfl, rfl⟩

theorem truthy_eq_some_getD (o : Option ℚ) (h : truthyQ o) :
    o = some (o.getD 0) := by
  cases o
  · simp [truthyQ] at h
  · rfl

theorem close_all_fold_active (ed : ℤ) (hd : HistoricalData)
    (l : List (String × BacktestTrade)) (acc : SimpleBacktester)
    (hsym : ∀ kv ∈ l, kv.2.symbol = kv.1)
    (htr : ∀ kv ∈ l, truthyQ (SimpleBacktester.lastPrice hd kv.1 ed)) :
    (l.foldl (SimpleBacktester.close_all_step ed hd) acc).active_trades =
      acc.active_trades.filter
        (fun kv => !(l.map Prod.fst).contains kv.1) := by
  induction l generalizing acc with
  | nil => simp
  | cons a t ih =>
    simp only [List.foldl_cons]
    have ha := htr a (List.mem_cons_self a t)
    have hstep : SimpleBacktester.close_all_step ed hd acc a =
        acc.close_trade a.2 ((SimpleBacktester.lastPrice hd a.1 ed).getD 0) ed
          "Backtest End" := by
      unfold SimpleBacktester.close_all_step
      dsimp only
      rw [if_pos ha]
    rw [hstep, ih _ (fun kv hkv => hsym kv (List.mem_cons_of_mem a hkv))
      (fun kv hkv => htr kv (List.mem_cons_of_mem a hkv))]
    show (acc.active_trades.filter (fun kv => kv.1 ≠ a.2.symbol)).filter _ = _
    rw [hsym a (List.mem_cons_self a t), List.filter_filter]
    apply List.filter_congr
    intro kv _
    have hbd : (kv.1 == a.1) = decide (kv.1 = a.1) := by
      cases hde : decide (kv.1 = a.1)
      · simp only [decide_eq_false_iff_not] at hde
        exact beq_false_of_ne hde
      · simp only [decide_eq_true_eq] at hde
        exact beq_iff_eq.mpr hde
    simp [List.contains_cons, Bool.not_or, Bool.and_comm, ne_eq, hbd]

theorem close_all_fold_completed (ed : ℤ) (hd : HistoricalData)
    (l : List (String × BacktestTrade)) (acc : SimpleBacktester)
    (hsym : ∀ kv ∈ l, kv.2.symbol = kv.1) :
    ∀ t ∈ (l.foldl (SimpleBacktester.close_all_step ed hd) acc).completed_trades,
      t ∈ acc.completed_trades ∨
        (t.exit_reason = "Backtest End" ∧ t.exit_time = some ed ∧
         t.exit_price = SimpleBacktester.lastPrice hd t.symbol ed) := by
  induction l generalizing acc with
  | nil => exact fun t ht => Or.inl ht
  | cons a tl ih =>
    simp only [List.foldl_cons]
    intro t ht
    have hrec := ih (SimpleBacktester.close_all_step ed hd acc a)
      (fun kv hkv => hsym kv (List.mem_cons_of_mem a hkv)) t ht
    rcases hrec with hmem | hdone
    · unfold SimpleBacktester.close_all_step at hmem
      dsimp only at hmem
      split_ifs at hmem with htr
      · unfold SimpleBacktester.close_trade at hmem
        dsimp only at hmem
        rcases List.mem_append.mp hmem with hmem | hmem
        · exact Or.inl hmem
        · rw [List.mem_singleton] at hmem
          subst hmem
          right
          have hfields := calc_results_fields
            { a.2 with
              exit_price := some ((SimpleBacktester.lastPrice hd a.1 ed).getD 0)
              exit_time := some ed
              exit_reason := "Backtest End" }
          refine ⟨hfields.2.2.2, hfields.2.2.1, ?_⟩
          rw [hfields.2.1, hfields.1]
          show some ((SimpleBacktester.lastPrice hd a.1 ed).getD 0) =
            SimpleBacktester.lastPrice hd a.2.symbol ed
          rw [hsym a (List.mem_cons_self a tl)]
          exact (truthy_eq_some_getD _ htr).symm
      · exact Or.inl hmem
    · exact Or.inr hdone

/-- C8 (amended): after _close_all_positions (the final step of
run_backtest), every remaining open trade whose symbol has a truthy last
listed price at or before end_date (found and nonzero) is force-closed at
that price with exit reason "Backtest End"; when every open trade has such
a price, no trade remains open.  A trade whose last listed price is 0.0
(falsy) remains open. -/
theorem backtest_end_close_amended :
    (∀ (st : SimpleBacktester) (ed : ℤ) (hd : HistoricalData),
      (∀ kv ∈ st.active_trades, kv.2.symbol = kv.1) →
      (∀ kv ∈ st.active_trades,
        truthyQ (SimpleBacktester.lastPrice hd kv.1 ed)) →
      (st.close_all_positions ed hd).active_trades = []) ∧
    (∀ (st : SimpleBacktester) (ed : ℤ) (hd : HistoricalData),
      (∀ kv ∈ st.active_trades, kv.2.symbol = kv.1) →
      ∀ t ∈ (st.close_all_positions ed hd).completed_trades,
        t ∈ st.completed_trades ∨
          (t.exit_reason = "Backtest End" ∧ t.exit_time = some ed ∧
           t.exit_price = SimpleBacktester.lastPrice hd t.symbol ed)) := by
  constructor
  · intro st ed hd hsym htr
    unfold SimpleBacktester.close_all_positions
    rw [close_all_fold_active ed hd st.active_trades st hsym htr]
    rw [List.filter_eq_nil_iff]
    intro kv hkv
    simp only [Bool.not_eq_true', Bool.not_eq_false]
    exact List.contains_iff_exists_mem_beq.mpr
      ⟨kv.1, List.mem_map_of_mem Prod.fst hkv, by simp⟩
  · intro st ed hd hsym
    exact close_all_fold_completed ed hd st.active_trades st hsym

def btTradeC8 : BacktestTrade :=
  { strategy_name := "Conservative Trend Following", symbol := "BTC",
    entry_time := 10, exit_time := none, entry_price := 100, exit_price := none,
    quantity := 1, signal := TradingSignal.BUY, confidence := 7/10,
    reasoning := "", stop_loss := none, take_profit := none }

def btStateC8 : SimpleBacktester :=
  { initial_capital := 10000, current_capital := 9920,
    active_trades := [("BTC", btTradeC8)], completed_trades := [],
    equity_history := [] }

def mdC8a : MarketData :=
  { symbol := "BTC", price := 100, volume := 0, timestamp := 10,
    high_24h := 0, low_24h := 0, change_24h := 0 }

def mdC8b : MarketData :=
  { symbol := "BTC", price := 0, volume := 0, timestamp := 5,
    high_24h := 0, low_24h := 0, change_24h := 0 }

def histC8 : HistoricalData := [("BTC", [mdC8a, mdC8b])]

def histC8good : HistoricalData := [("BTC", [mdC8a])]

/-- C8 counterexample to the claim as stated: the symbol's last listed
data point at or before the end date carries price 0.0, which is falsy, so
the open trade is NOT closed and remains open after _close_all_positions
(and hence after run_backtest, which reaches this state when the zero-price
point lies before the backtest window and last in the data list). -/
theorem backtest_end_zero_price_counterexample :
    SimpleBacktester.lastPrice histC8 "BTC" 10 = some 0 ∧
    (btStateC8.close_all_positions 10 histC8).active_trades =
      [("BTC", btTradeC8)] :=
  ⟨rfl, rfl⟩

/-- C8 witness: the amended theorem applied at the concrete state
btStateC8 against data whose last price is truthy - the trade is closed and
nothing remains open. -/
theorem backtest_end_close_amended_witness :
    (btStateC8.close_all_positions 10 histC8good).active_trades = [] ∧
    (∀ t ∈ (btStateC8.close_all_positions 10 histC8good).completed_trades,
      t ∈ btStateC8.completed_trades ∨
        (t.exit_reason = "Backtest End" ∧ t.exit_time = some 10 ∧
         t.exit_price = SimpleBacktester.lastPrice histC8good t.symbol 10)) := by
  constructor
  · exact backtest_end_close_amended.1 btStateC8 10 histC8good
      (by intro kv hkv; simp [btStateC8] at hkv; rw [hkv]; rfl)
      (by intro kv hkv; simp [btStateC8] at hkv; rw [hkv]; rfl)
  · exact backtest_end_close_amended.2 btStateC8 10 histC8good
      (by intro kv hkv; simp [btStateC8] at hkv; rw [hkv]; rfl)
